import Mathlib

/-!
Verification of the camt.052 parser (`src/camt_parser.py`) against its
natural-language specification.

The development shallowly embeds the Python module: each dataclass becomes a
Lean structure, each `parse_xml` loop becomes a fold (`runLoop`) over the
element's children with a per-entity step function that mirrors the Python
loop body, and each `to_dict_tree` becomes a function into a generic
map/array/scalar tree (`DVal`).  Python exceptions are modelled by the
`PyError` type and `Except PyError` results: `ParseError`, `ValueError`,
`TypeError`, `AssertionError`, `AttributeError`, `UnboundLocalError`,
`IndexError` and `KeyError` each get a constructor, because the code lets
several of these escape distinctly.
-/

namespace Camt



/-- Model of the Python exceptions the module can raise.  `parseError` is the
module's own `ParseError`; the others are builtin exception classes that the
code lets propagate (it never catches anything). -/

inductive PyError where
  | parseError (msg : String)
  | valueError (msg : String)
  | typeError (msg : String)
  | assertionError
  | attributeError (msg : String)
  | unboundLocalError (name : String)
  | indexError (msg : String)
  | keyError (msg : String)
  deriving DecidableEq, Repr

/-- Model of `xml.etree.ElementTree.Element`: a qualified tag, the attribute
dictionary, the optional text content, and the list of direct children in
document order. -/

structure Elem where
  tag : String
  attrib : List (String × String)
  text : Option String
  children : List Elem

/-- Exact decimal value of a parsed float literal, kept as an unreduced
numerator/denominator pair so that concrete parses evaluate by kernel
reduction.  The module never does arithmetic on amounts, it only stores and
re-emits them; Python binary floating-point rounding is not modelled. -/

structure PyFloat where
  num : Int
  den : Nat
  deriving DecidableEq, Repr

/-- Generic ordered map / array / scalar tree, the target of the
`to_dict_tree` serializers (what Python builds out of dicts, lists, strings,
numbers, booleans and `None`). -/

inductive DVal where
  | null
  | str (s : String)
  | int (n : Int)
  | bool (b : Bool)
  | float (q : PyFloat)
  | list (xs : List DVal)
  | dict (entries : List (String × DVal))

/-- The single-quote character, used to assemble the error-message strings of
the source verbatim. -/

def sq : String := String.singleton (Char.ofNat 39)

/-- Python `repr` of a string as it appears in builtin error messages
(quotes around the text; escaping of exotic characters is not modelled). -/

def pyRepr (s : String) : String := sq ++ s ++ sq

/-- Error propagation: run the continuation on success, forward the error
otherwise.  This is Python's implicit exception propagation. -/

def onOk {α β : Type} (x : Except PyError α) (f : α → Except PyError β) : Except PyError β :=
  match x with
  | .ok v => f v
  | .error e => .error e

/-- The `for child in tree:` loop shared by every `parse_xml`: thread the
local-variable state through the per-child step, stopping at the first
exception. -/

def runLoop {σ : Type} (step : σ → Elem → Except PyError σ) (s : σ) :
    List Elem → Except PyError σ
  | [] => .ok s
  | c :: cs => onOk (step s c) (fun s2 => runLoop step s2 cs)

/-- Substring relation on strings (used to state that an error message names
a tag or an entity). -/

def IsSubstr (x s : String) : Prop := List.IsInfix x.data s.data

instance (x s : String) : Decidable (IsSubstr x s) := by
  unfold IsSubstr; infer_instance

/-- Message of the `Unknown tag '…' in …` `ParseError`s (most entities). -/

def unknownTagMsg (tg entity : String) : String :=
  "Unknown tag " ++ sq ++ tg ++ sq ++ " in " ++ entity

/-- Message of the `Unknown child '… in …` `ParseError`s (`MessagePagination`
and `GroupHeader`; the source interpolates the raw qualified tag and omits the
closing quote). -/

def unknownChildMsg (raw entity : String) : String :=
  "Unknown child " ++ sq ++ raw ++ " in " ++ entity

/-- The opening-brace character of a qualified XML tag. -/

def obr : Char := Char.ofNat 123

/-- The closing-brace character of a qualified XML tag. -/

def cbr : Char := Char.ofNat 125

/-- `strip_ns`: the regex `^(?:` brace `([^` brace `]+?)` brace `)?(.+)$`
applied to a tag.  With backtracking this returns the local name after a
`\x7bnamespace\x7d` prefix when the namespace part is nonempty and a local
name follows, returns the whole tag otherwise, and hits the source's
`assert m` (an `AssertionError`) only on the empty string. -/

def strip_ns (tag : String) : Except PyError String :=
  match tag.data with
  | [] => Except.error PyError.assertionError
  | c :: rest =>
    if c = obr then
      match rest.dropWhile (fun x => x ≠ cbr) with
      | [] => Except.ok tag
      | _ :: tail =>
        if rest.takeWhile (fun x => x ≠ cbr) = [] ∨ tail = [] then Except.ok tag
        else Except.ok (String.mk tail)
    else Except.ok tag

/-- Python's `int(text)` ignoring surrounding whitespace: an optional sign
followed by one or more decimal digits (digit-group underscores are not
modelled).  `int(None)` is a `TypeError`, a non-numeric string a
`ValueError`. -/

def parseIntCore (s : String) : Option Int :=
  let cs := (s.data.dropWhile Char.isWhitespace).reverse.dropWhile Char.isWhitespace |>.reverse
  let signed : Bool × List Char :=
    match cs with
    | c :: rest => if c = Char.ofNat 45 then (true, rest)
        else if c = Char.ofNat 43 then (false, rest) else (false, cs)
    | [] => (false, [])
  let ds := signed.2
  if ds ≠ [] ∧ ds.all Char.isDigit then
    let v : Nat := ds.foldl (fun acc c => acc * 10 + c.toNat - 48) 0
    some (if signed.1 then -(v : Int) else (v : Int))
  else none

def invalidIntMsg (s : String) : String :=
  "invalid literal for int() with base 10: " ++ pyRepr s

def pyInt (txt : Option String) : Except PyError Int :=
  match txt with
  | none => Except.error (PyError.typeError
      ("int() argument must be a string, a bytes-like object or a real number, not " ++ pyRepr "NoneType"))
  | some s =>
    match parseIntCore s with
    | some n => Except.ok n
    | none => Except.error (PyError.valueError (invalidIntMsg s))


def digitsVal (ds : List Char) : Nat :=
  ds.foldl (fun acc c => acc * 10 + (c.toNat - 48)) 0

/-- Splits an optional leading sign off a character list; `true` means
negative. -/

def splitSign (cs : List Char) : Bool × List Char :=
  match cs with
  | c :: rest =>
    if c = Char.ofNat 45 then (true, rest)
    else if c = Char.ofNat 43 then (false, rest)
    else (false, cs)
  | [] => (false, [])

/-- Python's `float(text)` on plain decimal literals: optional sign, digits
with an optional fraction part and an optional decimal exponent.  The value is
modelled as an exact rational, which the module never does arithmetic on
(`inf`/`nan` and hexadecimal floats are not modelled). -/
def parseFloatCore (s : String) : Option PyFloat :=
  let cs := ((s.data.dropWhile Char.isWhitespace).reverse.dropWhile Char.isWhitespace).reverse
  let signed := splitSign cs
  let body := signed.2
  let ip := body.takeWhile Char.isDigit
  let afterIp := body.drop ip.length
  let fracSplit : List Char × List Char :=
    match afterIp with
    | c :: r =>
      if c = Char.ofNat 46 then (r.takeWhile Char.isDigit, r.drop (r.takeWhile Char.isDigit).length)
      else ([], afterIp)
    | [] => ([], [])
  let fp := fracSplit.1
  let afterFrac := fracSplit.2
  let expSplit : Option Int :=
    match afterFrac with
    | [] => some 0
    | e :: r =>
      if e = Char.ofNat 101 ∨ e = Char.ofNat 69 then
        let esigned := splitSign r
        if esigned.2 ≠ [] ∧ esigned.2.all Char.isDigit then
          some (if esigned.1 then -(digitsVal esigned.2 : Int) else (digitsVal esigned.2 : Int))
        else none
      else none
  if ip ++ fp = [] then none
  else
    match expSplit with
    | none => none
    | some ex =>
      let mant : Int := Int.ofNat (digitsVal (ip ++ fp))
      let m : Int := if signed.1 then -mant else mant
      if 0 ≤ ex then some (PyFloat.mk (m * Int.ofNat (10 ^ ex.toNat)) (10 ^ fp.length))
      else some (PyFloat.mk m (10 ^ fp.length * 10 ^ (-ex).toNat))

def pyFloat (txt : Option String) : Except PyError PyFloat :=
  match txt with
  | none => Except.error (PyError.typeError
      ("float() argument must be a string or a real number, not " ++ pyRepr "NoneType"))
  | some s =>
    match parseFloatCore s with
    | some q => Except.ok q
    | none => Except.error (PyError.valueError ("could not convert string to float: " ++ pyRepr s))

/-- Model of `datetime.datetime`; `tzoffset` is the UTC offset in minutes when
the value is timezone-aware. -/

structure PyDatetime where
  year : Nat
  month : Nat
  day : Nat
  hour : Nat
  minute : Nat
  second : Nat
  microsecond : Nat
  tzoffset : Option Int
  deriving DecidableEq, Repr

def isLeapYear (y : Nat) : Bool :=
  (y % 4 == 0 && y % 100 != 0) || y % 400 == 0

def daysInMonth (y m : Nat) : Nat :=
  if m = 2 then (if isLeapYear y then 29 else 28)
  else if m = 4 ∨ m = 6 ∨ m = 9 ∨ m = 11 then 30
  else 31

/-- Reads exactly `n` decimal digits. -/

def takeDigits (n : Nat) (cs : List Char) : Option (Nat × List Char) :=
  let ds := cs.take n
  if ds.length = n ∧ ds.all Char.isDigit then some (digitsVal ds, cs.drop n) else none

def expectChar (c : Char) : List Char → Option (List Char)
  | x :: r => if x = c then some r else none
  | [] => none

/-- Trailing `+HH:MM` / `-HH:MM` / `Z` timezone designator. -/

def parseIsoTz (cs : List Char) : Option (Option Int) :=
  match cs with
  | [] => some none
  | c :: r =>
    if c = Char.ofNat 90 ∧ r = [] then some (some 0)
    else if c = Char.ofNat 43 ∨ c = Char.ofNat 45 then
      match takeDigits 2 r with
      | some (hh, r2) =>
        match expectChar (Char.ofNat 58) r2 with
        | some r3 =>
          match takeDigits 2 r3 with
          | some (mm, r4) =>
            if r4 = [] ∧ hh ≤ 23 ∧ mm ≤ 59 then
              some (some (if c = Char.ofNat 45 then -((hh * 60 + mm : Nat) : Int)
                else ((hh * 60 + mm : Nat) : Int)))
            else none
          | none => none
        | none => none
      | none => none
    else none

/-- `HH:MM[:SS[.ffffff]]` with optional timezone. -/

def parseIsoTime (cs : List Char) : Option (Nat × Nat × Nat × Nat × Option Int) :=
  match takeDigits 2 cs with
  | none => none
  | some (h, r1) =>
    match expectChar (Char.ofNat 58) r1 with
    | none => none
    | some r2 =>
      match takeDigits 2 r2 with
      | none => none
      | some (mi, r3) =>
        let secPart : Option (Nat × Nat × List Char) :=
          match expectChar (Char.ofNat 58) r3 with
          | none => some (0, 0, r3)
          | some r4 =>
            match takeDigits 2 r4 with
            | none => none
            | some (s, r5) =>
              match expectChar (Char.ofNat 46) r5 with
              | none => some (s, 0, r5)
              | some r6 =>
                let fs := r6.takeWhile Char.isDigit
                if fs ≠ [] ∧ fs.length ≤ 6 then
                  some (s, digitsVal fs * 10 ^ (6 - fs.length), r6.drop fs.length)
                else none
        match secPart with
        | none => none
        | some (s, micro, r7) =>
          match parseIsoTz r7 with
          | none => none
          | some tz =>
            if h ≤ 23 ∧ mi ≤ 59 ∧ s ≤ 59 then some (h, mi, s, micro, tz) else none

/-- `datetime.fromisoformat` on the dashed `YYYY-MM-DD[{T or space}HH:MM[:SS[.ffffff]][tz]]`
shapes (the compact undashed variants the module never receives are not
modelled). -/

def parseIsoCore (s : String) : Option PyDatetime :=
  match takeDigits 4 s.data with
  | none => none
  | some (y, r1) =>
    match expectChar (Char.ofNat 45) r1 with
    | none => none
    | some r2 =>
      match takeDigits 2 r2 with
      | none => none
      | some (mo, r3) =>
        match expectChar (Char.ofNat 45) r3 with
        | none => none
        | some r4 =>
          match takeDigits 2 r4 with
          | none => none
          | some (d, r5) =>
            if 1 ≤ y ∧ 1 ≤ mo ∧ mo ≤ 12 ∧ 1 ≤ d ∧ d ≤ daysInMonth y mo then
              match r5 with
              | [] => some ⟨y, mo, d, 0, 0, 0, 0, none⟩
              | sep :: r6 =>
                if sep = Char.ofNat 84 ∨ sep = Char.ofNat 32 then
                  match parseIsoTime r6 with
                  | some (h, mi, sec, micro, tz) => some ⟨y, mo, d, h, mi, sec, micro, tz⟩
                  | none => none
                else none
            else none

def invalidIsoMsg (s : String) : String := "Invalid isoformat string: " ++ pyRepr s

def pyFromisoformat (txt : Option String) : Except PyError PyDatetime :=
  match txt with
  | none => Except.error (PyError.typeError "fromisoformat: argument must be str")
  | some s =>
    match parseIsoCore s with
    | some d => Except.ok d
    | none => Except.error (PyError.valueError (invalidIsoMsg s))

def digitChar (n : Nat) : Char := Char.ofNat (48 + n)

def pad2 (n : Nat) : String := String.mk [digitChar (n / 10 % 10), digitChar (n % 10)]

def pad4 (n : Nat) : String :=
  String.mk [digitChar (n / 1000 % 10), digitChar (n / 100 % 10), digitChar (n / 10 % 10),
    digitChar (n % 10)]

def pad6 (n : Nat) : String :=
  String.mk [digitChar (n / 100000 % 10), digitChar (n / 10000 % 10), digitChar (n / 1000 % 10),
    digitChar (n / 100 % 10), digitChar (n / 10 % 10), digitChar (n % 10)]

/-- `datetime.isoformat()`. -/

def pyIsoformat (d : PyDatetime) : String :=
  pad4 d.year ++ "-" ++ pad2 d.month ++ "-" ++ pad2 d.day ++ "T" ++ pad2 d.hour ++ ":" ++
    pad2 d.minute ++ ":" ++ pad2 d.second ++
    (if d.microsecond ≠ 0 then "." ++ pad6 d.microsecond else "") ++
    (match d.tzoffset with
     | none => ""
     | some off =>
       (if off < 0 then "-" else "+") ++ pad2 (off.natAbs / 60) ++ ":" ++ pad2 (off.natAbs % 60))

def enumValueMsg (t : Option String) (cls : String) : String :=
  (match t with | some v => pyRepr v | none => "None") ++ " is not a valid " ++ cls

/-- Enum `BalanceType` with its six codes. -/

inductive BalanceType where
  | ClosingAvailable
  | ClosingBooked
  | ForwardAvailable
  | OpeningBooked
  | PreviouslyClosed
  | OpeningAvailable
  deriving DecidableEq, Repr

/-- The wire code (the Python enum member value). -/

def BalanceType.value : BalanceType → String
  | .ClosingAvailable => "CLAV"
  | .ClosingBooked => "CLBD"
  | .ForwardAvailable => "FWAV"
  | .OpeningBooked => "OPBD"
  | .PreviouslyClosed => "PRCD"
  | .OpeningAvailable => "OPAV"

/-- `BalanceType(text)`: value lookup, `ValueError` on anything unknown. -/

def balanceTypeOfCode : Option String → Except PyError BalanceType
  | some "CLAV" => Except.ok BalanceType.ClosingAvailable
  | some "CLBD" => Except.ok BalanceType.ClosingBooked
  | some "FWAV" => Except.ok BalanceType.ForwardAvailable
  | some "OPBD" => Except.ok BalanceType.OpeningBooked
  | some "PRCD" => Except.ok BalanceType.PreviouslyClosed
  | some "OPAV" => Except.ok BalanceType.OpeningAvailable
  | t => Except.error (PyError.valueError (enumValueMsg t "BalanceType"))

/-- Python `str()` of an optional `BalanceType` (module serializes
`str(self.balance_type)`, and `str(None)` is `"None"`). -/

def strOptBalanceType : Option BalanceType → String
  | none => "None"
  | some BalanceType.ClosingAvailable => "BalanceType.ClosingAvailable"
  | some BalanceType.ClosingBooked => "BalanceType.ClosingBooked"
  | some BalanceType.ForwardAvailable => "BalanceType.ForwardAvailable"
  | some BalanceType.OpeningBooked => "BalanceType.OpeningBooked"
  | some BalanceType.PreviouslyClosed => "BalanceType.PreviouslyClosed"
  | some BalanceType.OpeningAvailable => "BalanceType.OpeningAvailable"

inductive CreditDebit where
  | Credit
  | Debit
  deriving DecidableEq, Repr

def CreditDebit.value : CreditDebit → String
  | .Credit => "CRDT"
  | .Debit => "DBIT"

def CreditDebit.ofText : Option String → Except PyError CreditDebit
  | some "CRDT" => Except.ok CreditDebit.Credit
  | some "DBIT" => Except.ok CreditDebit.Debit
  | t => Except.error (PyError.valueError (enumValueMsg t "CreditDebit"))

def strOptCreditDebit : Option CreditDebit → String
  | none => "None"
  | some CreditDebit.Credit => "CreditDebit.Credit"
  | some CreditDebit.Debit => "CreditDebit.Debit"

inductive EntryStatus where
  | Booked
  | Information
  | Pending
  | Future
  deriving DecidableEq, Repr

def EntryStatus.value : EntryStatus → String
  | .Booked => "BOOK"
  | .Information => "INFO"
  | .Pending => "PDNG"
  | .Future => "FUTR"

def EntryStatus.ofText : Option String → Except PyError EntryStatus
  | some "BOOK" => Except.ok EntryStatus.Booked
  | some "INFO" => Except.ok EntryStatus.Information
  | some "PDNG" => Except.ok EntryStatus.Pending
  | some "FUTR" => Except.ok EntryStatus.Future
  | t => Except.error (PyError.valueError (enumValueMsg t "EntryStatus"))

def strOptEntryStatus : Option EntryStatus → String
  | none => "None"
  | some EntryStatus.Booked => "EntryStatus.Booked"
  | some EntryStatus.Information => "EntryStatus.Information"
  | some EntryStatus.Pending => "EntryStatus.Pending"
  | some EntryStatus.Future => "EntryStatus.Future"

/-- `"true" in child.text.lower()`; calling `.lower()` on a missing text is an
`AttributeError`. -/

def pyBoolFromText (txt : Option String) : Except PyError Bool :=
  match txt with
  | none => Except.error (PyError.attributeError
      (pyRepr "NoneType" ++ " object has no attribute " ++ pyRepr "lower"))
  | some s => Except.ok (decide (List.IsInfix "true".data s.toLower.data))

/-- Python dict update semantics for the generic key/value comprehension:
a repeated key keeps its first position but takes the latest value. -/

def dictUpdate (m : List (String × Option String)) (k : String) (v : Option String) :
    List (String × Option String) :=
  if m.any (fun p => p.1 == k) then m.map (fun p => if p.1 == k then (p.1, v) else p)
  else m ++ [(k, v)]

def kvLoop (acc : List (String × Option String)) :
    List Elem → Except PyError (List (String × Option String))
  | [] => Except.ok acc
  | c :: cs => onOk (strip_ns c.tag) fun k => kvLoop (dictUpdate acc k c.text) cs

/-- `parse_generic_kv_list`: `{strip_ns(child.tag): child.text for child in tree}`. -/

def parse_generic_kv_list (t : Elem) : Except PyError (List (String × Option String)) :=
  kvLoop [] t.children

/-- `parse_date_or_datetime`: exactly one child named `Dt` or `DtTm`, whose
text is decoded with `fromisoformat`. -/

def parse_date_or_datetime (t : Elem) : Except PyError PyDatetime :=
  match t.children with
  | [c] =>
    onOk (strip_ns c.tag) fun s =>
      if s ≠ "Dt" ∧ s ≠ "DtTm" then
        Except.error (PyError.parseError ("Child of " ++ sq ++ "Dt" ++ sq ++ " must be " ++
          sq ++ "Dt" ++ sq ++ " or " ++ sq ++ "DtTm" ++ sq))
      else pyFromisoformat c.text
  | _ => Except.error (PyError.parseError "Maximum number of children in Dt is 1")

def lookupAttr : List (String × String) → String → Option String
  | [], _ => none
  | p :: ps, k => if p.1 = k then some p.2 else lookupAttr ps k

/-- `tree.attrib[key]`: `KeyError` when absent. -/

def pyAttr (t : Elem) (k : String) : Except PyError String :=
  match lookupAttr t.attrib k with
  | some v => Except.ok v
  | none => Except.error (PyError.keyError (pyRepr k))

/-- `tree[0]`: `IndexError` on an element without children. -/

def pyChild0 (t : Elem) : Except PyError Elem :=
  match t.children with
  | c :: _ => Except.ok c
  | [] => Except.error (PyError.indexError "child index out of range")

def noneAttrMsg (method : String) : String :=
  pyRepr "NoneType" ++ " object has no attribute " ++ pyRepr method

/-- Calling a method on an optional value: `AttributeError` on `None`.  Used
where the source calls `x.f()` without a `None` guard. -/

def pyMethod {α β : Type} (o : Option α) (method : String) (f : α → Except PyError β) :
    Except PyError β :=
  match o with
  | some v => f v
  | none => Except.error (PyError.attributeError (noneAttrMsg method))

def optStr : Option String → DVal
  | some s => DVal.str s
  | none => DVal.null

def optInt : Option Int → DVal
  | some n => DVal.int n
  | none => DVal.null

def optBool : Option Bool → DVal
  | some b => DVal.bool b
  | none => DVal.null

/-- `x if x else None` on an optional string: Python truthiness maps both
`None` and the empty string to `None`. -/

def serTruthyStr : Option String → DVal
  | none => DVal.null
  | some s => if s.isEmpty then DVal.null else DVal.str s

def serKV (m : List (String × Option String)) : DVal :=
  DVal.dict (m.map (fun p => (p.1, optStr p.2)))

/-- `x if x else None` on an optional dict: the empty dict is also falsy. -/

def serTruthyKV : Option (List (String × Option String)) → DVal
  | none => DVal.null
  | some m => if m.isEmpty then DVal.null else serKV m

/-- `x.to_dict_tree() if x else None` for a total serializer. -/

def serOpt {α : Type} (o : Option α) (f : α → DVal) : DVal :=
  match o with
  | some v => f v
  | none => DVal.null

/-- `x.to_dict_tree() if x else None` for a fallible serializer. -/

def serOptE {α : Type} (o : Option α) (f : α → Except PyError DVal) : Except PyError DVal :=
  match o with
  | some v => f v
  | none => Except.ok DVal.null

def mapDVal {α : Type} (f : α → Except PyError DVal) : List α → Except PyError (List DVal)
  | [] => Except.ok []
  | x :: xs => onOk (f x) fun d => onOk (mapDVal f xs) fun ds => Except.ok (d :: ds)

/-- `MessagePagination` (children `PgNb`, `LastPgInd`). -/

structure MessagePagination where
  page_number : Option Int
  last_page_indication : Option Bool
  deriving DecidableEq, Repr

def messagePaginationStep (s : MessagePagination) (child : Elem) :
    Except PyError MessagePagination :=
  onOk (strip_ns child.tag) fun tg =>
    if tg = "PgNb" then
      onOk (pyInt child.text) fun n => Except.ok { s with page_number := some n }
    else if tg = "LastPgInd" then
      onOk (pyBoolFromText child.text) fun b => Except.ok { s with last_page_indication := some b }
    else Except.error (PyError.parseError (unknownChildMsg child.tag "MessagePagination"))

def MessagePagination.parse_xml (t : Elem) : Except PyError MessagePagination :=
  runLoop messagePaginationStep ⟨none, none⟩ t.children

def MessagePagination.to_dict_tree (r : MessagePagination) : DVal :=
  DVal.dict [("pageNumber", optInt r.page_number),
    ("last_page_indication", optBool r.last_page_indication)]

/-- `GroupHeader` (children `MsgId`, `CreDtTm`, `MsgPgntn`). -/

structure GroupHeader where
  message_identification : Option String
  creation_time : Option PyDatetime
  message_pagination : Option MessagePagination
  deriving DecidableEq, Repr

def groupHeaderStep (s : GroupHeader) (child : Elem) : Except PyError GroupHeader :=
  onOk (strip_ns child.tag) fun tg =>
    if tg = "MsgId" then Except.ok { s with message_identification := child.text }
    else if tg = "CreDtTm" then
      onOk (pyFromisoformat child.text) fun d => Except.ok { s with creation_time := some d }
    else if tg = "MsgPgntn" then
      onOk (MessagePagination.parse_xml child) fun mp =>
        Except.ok { s with message_pagination := some mp }
    else Except.error (PyError.parseError (unknownChildMsg child.tag "GroupHeader"))

def GroupHeader.parse_xml (t : Elem) : Except PyError GroupHeader :=
  runLoop groupHeaderStep ⟨none, none, none⟩ t.children

def GroupHeader.to_dict_tree (r : GroupHeader) : Except PyError DVal :=
  onOk (pyMethod r.creation_time "isoformat" (fun d => Except.ok (pyIsoformat d))) fun ct =>
    Except.ok (DVal.dict [
      ("messageIdentification", optStr r.message_identification),
      ("creationTime", DVal.str ct),
      ("messagePagination", serOpt r.message_pagination MessagePagination.to_dict_tree)])

/-- `FinancialInstitutionIdentification` (children `BIC`, `Nm`, `Othr`). -/

structure FinancialInstitutionIdentification where
  bicfi : Option String
  name : Option String
  other : Option (List (String × Option String))
  deriving DecidableEq, Repr

def financialInstitutionIdentificationStep (s : FinancialInstitutionIdentification)
    (child : Elem) : Except PyError FinancialInstitutionIdentification :=
  onOk (strip_ns child.tag) fun tg =>
    if tg = "BIC" then Except.ok { s with bicfi := child.text }
    else if tg = "Nm" then Except.ok { s with name := child.text }
    else if tg = "Othr" then
      onOk (parse_generic_kv_list child) fun kv => Except.ok { s with other := some kv }
    else Except.error (PyError.parseError
      (unknownTagMsg tg "FinancialInstitutionIdentification"))

def FinancialInstitutionIdentification.parse_xml (t : Elem) :
    Except PyError FinancialInstitutionIdentification :=
  runLoop financialInstitutionIdentificationStep ⟨none, none, none⟩ t.children

def FinancialInstitutionIdentification.to_dict_tree
    (r : FinancialInstitutionIdentification) : DVal :=
  DVal.dict [("bicfi", serTruthyStr r.bicfi), ("name", serTruthyStr r.name),
    ("other", serTruthyKV r.other)]

/-- `Servicer` (child `FinInstnId`). -/

structure Servicer where
  financial_institution_identification : Option FinancialInstitutionIdentification
  deriving DecidableEq, Repr

def servicerStep (s : Servicer) (child : Elem) : Except PyError Servicer :=
  onOk (strip_ns child.tag) fun tg =>
    if tg = "FinInstnId" then
      onOk (FinancialInstitutionIdentification.parse_xml child) fun f =>
        Except.ok { s with financial_institution_identification := some f }
    else Except.error (PyError.parseError (unknownTagMsg tg "Servicer"))

def Servicer.parse_xml (t : Elem) : Except PyError Servicer :=
  runLoop servicerStep ⟨none⟩ t.children

def Servicer.to_dict_tree (r : Servicer) : DVal :=
  DVal.dict [("financialInstitutionIdentification",
    serOpt r.financial_institution_identification
      FinancialInstitutionIdentification.to_dict_tree)]

/-- `Account` (children `Id` with nested `IBAN`, `Ccy`, `Svcr`). -/

structure Account where
  iban : Option String
  currency : Option String
  servicer : Option Servicer
  deriving DecidableEq, Repr

def accountStep (s : Account) (child : Elem) : Except PyError Account :=
  onOk (strip_ns child.tag) fun tg =>
    if tg = "Id" then
      onOk (pyChild0 child) fun c0 =>
        onOk (strip_ns c0.tag) fun s0 =>
          if s0 = "IBAN" then Except.ok { s with iban := c0.text }
          else Except.error PyError.assertionError
    else if tg = "Ccy" then Except.ok { s with currency := child.text }
    else if tg = "Svcr" then
      onOk (Servicer.parse_xml child) fun sv => Except.ok { s with servicer := some sv }
    else Except.error (PyError.parseError (unknownTagMsg tg "Account"))

def Account.parse_xml (t : Elem) : Except PyError Account :=
  runLoop accountStep ⟨none, none, none⟩ t.children

def Account.to_dict_tree (r : Account) : DVal :=
  DVal.dict [("iban", optStr r.iban), ("currency", serTruthyStr r.currency),
    ("servicer", serOpt r.servicer Servicer.to_dict_tree)]

/-- `BalanceType.parse_xml`: asserts `Tp` has a sole `CdOrPrtry` child that has
a sole `Cd` child (short-circuit conjunction, so a shape violation is a plain
`AssertionError`), then decodes the code text. -/

def BalanceType.parse_xml (t : Elem) : Except PyError BalanceType :=
  match t.children with
  | [c1] =>
    onOk (strip_ns c1.tag) fun s1 =>
      if s1 = "CdOrPrtry" then
        match c1.children with
        | [c2] =>
          onOk (strip_ns c2.tag) fun s2 =>
            if s2 = "Cd" then balanceTypeOfCode c2.text
            else Except.error PyError.assertionError
        | _ => Except.error PyError.assertionError
      else Except.error PyError.assertionError
  | _ => Except.error PyError.assertionError

/-- `Amount`: element text as a float plus the mandatory `Ccy` attribute. -/

structure Amount where
  value : PyFloat
  currency : String
  deriving DecidableEq, Repr

def Amount.parse_xml (t : Elem) : Except PyError Amount :=
  onOk (pyFloat t.text) fun v =>
    onOk (pyAttr t "Ccy") fun c => Except.ok (Amount.mk v c)

def Amount.to_dict_tree (a : Amount) : DVal :=
  DVal.dict [("value", DVal.float a.value), ("currency", DVal.str a.currency)]

/-- `Balance` (children `Tp`, `Amt`, `CdtDbtInd`, `Dt`). -/

structure Balance where
  balance_type : Option BalanceType
  amount : Option Amount
  credit_debit : Option CreditDebit
  date : Option PyDatetime
  deriving DecidableEq, Repr

def balanceStep (s : Balance) (child : Elem) : Except PyError Balance :=
  onOk (strip_ns child.tag) fun tg =>
    if tg = "Tp" then
      onOk (BalanceType.parse_xml child) fun bt => Except.ok { s with balance_type := some bt }
    else if tg = "Amt" then
      onOk (Amount.parse_xml child) fun a => Except.ok { s with amount := some a }
    else if tg = "CdtDbtInd" then
      onOk (CreditDebit.ofText child.text) fun cd => Except.ok { s with credit_debit := some cd }
    else if tg = "Dt" then
      onOk (parse_date_or_datetime child) fun d => Except.ok { s with date := some d }
    else Except.error (PyError.parseError (unknownTagMsg tg "Balance"))

def Balance.parse_xml (t : Elem) : Except PyError Balance :=
  runLoop balanceStep ⟨none, none, none, none⟩ t.children

def Balance.to_dict_tree (r : Balance) : Except PyError DVal :=
  onOk (pyMethod r.amount "to_dict_tree" (fun a => Except.ok (Amount.to_dict_tree a))) fun am =>
    onOk (pyMethod r.date "isoformat" (fun d => Except.ok (pyIsoformat d))) fun dt =>
      Except.ok (DVal.dict [
        ("balanceType", DVal.str (strOptBalanceType r.balance_type)),
        ("amount", am),
        ("creditDebit", DVal.str (strOptCreditDebit r.credit_debit)),
        ("date", DVal.str dt)])

/-- `ProprietaryReference` (children `Tp`, `Ref`). -/

structure ProprietaryReference where
  reference_type : Option String
  reference : Option String
  deriving DecidableEq, Repr

def proprietaryReferenceStep (s : ProprietaryReference) (child : Elem) :
    Except PyError ProprietaryReference :=
  onOk (strip_ns child.tag) fun tg =>
    if tg = "Tp" then Except.ok { s with reference_type := child.text }
    else if tg = "Ref" then Except.ok { s with reference := child.text }
    else Except.error (PyError.parseError (unknownTagMsg tg "ProprietaryReference"))

def ProprietaryReference.parse_xml (t : Elem) : Except PyError ProprietaryReference :=
  runLoop proprietaryReferenceStep ⟨none, none⟩ t.children

def ProprietaryReference.to_dict_tree (r : ProprietaryReference) : DVal :=
  DVal.dict [("type", optStr r.reference_type), ("reference", optStr r.reference)]

/-- `References` (children `EndToEndId`, `MndtId`, repeatable `Prtry`). -/

structure References where
  end_to_end_identification : Option String
  mandate_identification : Option String
  proprietary_reference : List ProprietaryReference
  deriving DecidableEq, Repr

def referencesStep (s : References) (child : Elem) : Except PyError References :=
  onOk (strip_ns child.tag) fun tg =>
    if tg = "EndToEndId" then Except.ok { s with end_to_end_identification := child.text }
    else if tg = "MndtId" then Except.ok { s with mandate_identification := child.text }
    else if tg = "Prtry" then
      onOk (ProprietaryReference.parse_xml child) fun pr =>
        Except.ok { s with proprietary_reference := s.proprietary_reference ++ [pr] }
    else Except.error (PyError.parseError (unknownTagMsg tg "References"))

def References.parse_xml (t : Elem) : Except PyError References :=
  runLoop referencesStep ⟨none, none, []⟩ t.children

def References.to_dict_tree (r : References) : DVal :=
  DVal.dict [
    ("end_to_end_identification", serTruthyStr r.end_to_end_identification),
    ("mandate_identification", serTruthyStr r.mandate_identification),
    ("proprietaryReference", DVal.list (r.proprietary_reference.map
      ProprietaryReference.to_dict_tree))]

/-- `ProprietaryBankTransactionCode` (children `Cd`, `Issr`). -/

structure ProprietaryBankTransactionCode where
  code : Option String
  issuer : Option String
  deriving DecidableEq, Repr

def proprietaryBankTransactionCodeStep (s : ProprietaryBankTransactionCode) (child : Elem) :
    Except PyError ProprietaryBankTransactionCode :=
  onOk (strip_ns child.tag) fun tg =>
    if tg = "Cd" then Except.ok { s with code := child.text }
    else if tg = "Issr" then Except.ok { s with issuer := child.text }
    else Except.error (PyError.parseError (unknownTagMsg tg "ProprietaryBankTransactionCode"))

def ProprietaryBankTransactionCode.parse_xml (t : Elem) :
    Except PyError ProprietaryBankTransactionCode :=
  runLoop proprietaryBankTransactionCodeStep ⟨none, none⟩ t.children

def ProprietaryBankTransactionCode.to_dict_tree (r : ProprietaryBankTransactionCode) : DVal :=
  DVal.dict [("code", optStr r.code), ("issuer", optStr r.issuer)]

/-- `parse_bank_transaction_code_from_xml`: asserts a single child, accepts
only `Prtry`; note the error message interpolates `strip_ns(tree.tag)` — the
PARENT element's tag — not the offending child's. -/

def parse_bank_transaction_code_from_xml (t : Elem) :
    Except PyError ProprietaryBankTransactionCode :=
  match t.children with
  | [c] =>
    onOk (strip_ns c.tag) fun s =>
      if s = "Prtry" then ProprietaryBankTransactionCode.parse_xml c
      else
        onOk (strip_ns t.tag) fun pt =>
          Except.error (PyError.parseError (unknownTagMsg pt "BankTransactionCode"))
  | _ => Except.error PyError.assertionError

/-- `PrivateIdentification` (child `Othr`). -/

structure PrivateIdentification where
  other : Option (List (String × Option String))
  deriving DecidableEq, Repr

def privateIdentificationStep (s : PrivateIdentification) (child : Elem) :
    Except PyError PrivateIdentification :=
  onOk (strip_ns child.tag) fun tg =>
    if tg = "Othr" then
      onOk (parse_generic_kv_list child) fun kv => Except.ok { s with other := some kv }
    else Except.error (PyError.parseError (unknownTagMsg tg "PrivateIdentification"))

def PrivateIdentification.parse_xml (t : Elem) : Except PyError PrivateIdentification :=
  runLoop privateIdentificationStep ⟨none⟩ t.children

def PrivateIdentification.to_dict_tree (r : PrivateIdentification) : DVal :=
  DVal.dict [("other", serTruthyKV r.other)]

/-- `parse_identification_from_xml`: asserts a single child, accepts only
`PrvtId`; like the bank-transaction-code choice, the error message names the
parent element's tag. -/

def parse_identification_from_xml (t : Elem) : Except PyError PrivateIdentification :=
  match t.children with
  | [c] =>
    onOk (strip_ns c.tag) fun s =>
      if s = "PrvtId" then PrivateIdentification.parse_xml c
      else
        onOk (strip_ns t.tag) fun pt =>
          Except.error (PyError.parseError (unknownTagMsg pt "Identification"))
  | _ => Except.error PyError.assertionError

/-- `PartyIdentification` (children `Nm`, `Id`). -/

structure PartyIdentification where
  name : Option String
  identification : Option PrivateIdentification
  deriving DecidableEq, Repr

def partyIdentificationStep (s : PartyIdentification) (child : Elem) :
    Except PyError PartyIdentification :=
  onOk (strip_ns child.tag) fun tg =>
    if tg = "Nm" then Except.ok { s with name := child.text }
    else if tg = "Id" then
      onOk (parse_identification_from_xml child) fun pid =>
        Except.ok { s with identification := some pid }
    else Except.error (PyError.parseError (unknownTagMsg tg "PartyIdentification"))

def PartyIdentification.parse_xml (t : Elem) : Except PyError PartyIdentification :=
  runLoop partyIdentificationStep ⟨none, none⟩ t.children

def PartyIdentification.to_dict_tree (r : PartyIdentification) : DVal :=
  DVal.dict [("name", serTruthyStr r.name),
    ("identification", serOpt r.identification PrivateIdentification.to_dict_tree)]

/-- `PartyChoice = PartyIdentification | FinancialInstitutionIdentification`. -/

inductive PartyChoice where
  | party (p : PartyIdentification)
  | fin (f : FinancialInstitutionIdentification)
  deriving DecidableEq, Repr

/-- `parse_partchoice_from_xml`: the structural disambiguation — exactly one
child named `FinInstnId` parses as the institution variant, every other shape
falls back to `PartyIdentification.parse_xml` on the whole element. -/

def parse_partchoice_from_xml (t : Elem) : Except PyError PartyChoice :=
  match t.children with
  | [c] =>
    onOk (strip_ns c.tag) fun s =>
      if s = "FinInstnId" then
        onOk (FinancialInstitutionIdentification.parse_xml c) fun f =>
          Except.ok (PartyChoice.fin f)
      else
        onOk (PartyIdentification.parse_xml t) fun p => Except.ok (PartyChoice.party p)
  | _ => onOk (PartyIdentification.parse_xml t) fun p => Except.ok (PartyChoice.party p)

/-- Python's dynamic dispatch of `to_dict_tree` on whichever record the choice
holds. -/

def PartyChoice.to_dict_tree : PartyChoice → DVal
  | .party p => p.to_dict_tree
  | .fin f => f.to_dict_tree

/-- `CashAccount` (child `Id` with nested `IBAN`). -/

structure CashAccount where
  iban : Option String
  deriving DecidableEq, Repr

def cashAccountStep (s : CashAccount) (child : Elem) : Except PyError CashAccount :=
  onOk (strip_ns child.tag) fun tg =>
    if tg = "Id" then
      onOk (pyChild0 child) fun c0 =>
        onOk (strip_ns c0.tag) fun s0 =>
          if s0 = "IBAN" then Except.ok { s with iban := c0.text }
          else Except.error PyError.assertionError
    else Except.error (PyError.parseError (unknownTagMsg tg "CashAccount"))

def CashAccount.parse_xml (t : Elem) : Except PyError CashAccount :=
  runLoop cashAccountStep ⟨none⟩ t.children

def CashAccount.to_dict_tree (r : CashAccount) : DVal :=
  DVal.dict [("iban", optStr r.iban)]

/-- `RelatedParties` (children `Dbtr`, `DbtrAcct`, `Cdtr`, `CdtrAcct`). -/

structure RelatedParties where
  debtor : Option PartyChoice
  debtor_account : Option CashAccount
  creditor : Option PartyChoice
  creditor_account : Option CashAccount
  deriving DecidableEq, Repr

def relatedPartiesStep (s : RelatedParties) (child : Elem) : Except PyError RelatedParties :=
  onOk (strip_ns child.tag) fun tg =>
    if tg = "Dbtr" then
      onOk (parse_partchoice_from_xml child) fun d => Except.ok { s with debtor := some d }
    else if tg = "DbtrAcct" then
      onOk (CashAccount.parse_xml child) fun a => Except.ok { s with debtor_account := some a }
    else if tg = "Cdtr" then
      onOk (parse_partchoice_from_xml child) fun c => Except.ok { s with creditor := some c }
    else if tg = "CdtrAcct" then
      onOk (CashAccount.parse_xml child) fun a => Except.ok { s with creditor_account := some a }
    else Except.error (PyError.parseError (unknownTagMsg tg "RelatedParties"))

def RelatedParties.parse_xml (t : Elem) : Except PyError RelatedParties :=
  runLoop relatedPartiesStep ⟨none, none, none, none⟩ t.children

def RelatedParties.to_dict_tree (r : RelatedParties) : DVal :=
  DVal.dict [
    ("debtor", serOpt r.debtor PartyChoice.to_dict_tree),
    ("debtorAccount", serOpt r.debtor_account CashAccount.to_dict_tree),
    ("creditor", serOpt r.creditor PartyChoice.to_dict_tree),
    ("creditorAccount", serOpt r.creditor_account CashAccount.to_dict_tree)]

/-- `RelatedAgents` (children `DbtrAgt`, `CdtrAgt`).  The branch reproduces the
source's assertion verbatim: it checks `len(child[0]) == 1` — the child count
of the agent's FIRST child — and `strip_ns(child[0].tag) == "FinInstnId"`,
then parses `child[0]`; extra children of the wrapper itself are never
examined, and an empty wrapper raises `IndexError` from `child[0]`. -/

structure RelatedAgents where
  debtor_agent : Option FinancialInstitutionIdentification
  creditor_agent : Option FinancialInstitutionIdentification
  deriving DecidableEq, Repr

def relatedAgentsStep (s : RelatedAgents) (child : Elem) : Except PyError RelatedAgents :=
  onOk (strip_ns child.tag) fun tg =>
    if tg = "DbtrAgt" then
      onOk (pyChild0 child) fun c0 =>
        if c0.children.length = 1 then
          onOk (strip_ns c0.tag) fun s0 =>
            if s0 = "FinInstnId" then
              onOk (FinancialInstitutionIdentification.parse_xml c0) fun f =>
                Except.ok { s with debtor_agent := some f }
            else Except.error PyError.assertionError
        else Except.error PyError.assertionError
    else if tg = "CdtrAgt" then
      onOk (pyChild0 child) fun c0 =>
        if c0.children.length = 1 then
          onOk (strip_ns c0.tag) fun s0 =>
            if s0 = "FinInstnId" then
              onOk (FinancialInstitutionIdentification.parse_xml c0) fun f =>
                Except.ok { s with creditor_agent := some f }
            else Except.error PyError.assertionError
        else Except.error PyError.assertionError
    else Except.error (PyError.parseError (unknownTagMsg tg "RelatedAgents"))

def RelatedAgents.parse_xml (t : Elem) : Except PyError RelatedAgents :=
  runLoop relatedAgentsStep ⟨none, none⟩ t.children

/-- `RelatedAgents.to_dict_tree` calls `to_dict_tree` on both agents WITHOUT
the `if … else None` guard every other serializer uses, so an absent agent is
an `AttributeError` on `None`. -/

def RelatedAgents.to_dict_tree (r : RelatedAgents) : Except PyError DVal :=
  onOk (pyMethod r.debtor_agent "to_dict_tree"
      (fun f => Except.ok (FinancialInstitutionIdentification.to_dict_tree f))) fun d =>
    onOk (pyMethod r.creditor_agent "to_dict_tree"
        (fun f => Except.ok (FinancialInstitutionIdentification.to_dict_tree f))) fun c =>
      Except.ok (DVal.dict [("debtorAgent", d), ("creditorAgent", c)])

/-- `RelatedRemittanceInformation` (child `Ustrd`). -/

structure RelatedRemittanceInformation where
  unstructured : Option String
  deriving DecidableEq, Repr

def relatedRemittanceInformationStep (s : RelatedRemittanceInformation) (child : Elem) :
    Except PyError RelatedRemittanceInformation :=
  onOk (strip_ns child.tag) fun tg =>
    if tg = "Ustrd" then Except.ok { s with unstructured := child.text }
    else Except.error (PyError.parseError (unknownTagMsg tg "RelatedRemittanceInformation"))

def RelatedRemittanceInformation.parse_xml (t : Elem) :
    Except PyError RelatedRemittanceInformation :=
  runLoop relatedRemittanceInformationStep ⟨none⟩ t.children

def RelatedRemittanceInformation.to_dict_tree (r : RelatedRemittanceInformation) : DVal :=
  DVal.dict [("unstructured", optStr r.unstructured)]

/-- `TransactionDetails` record (fields of the dataclass). -/

structure TransactionDetails where
  references : Option References
  bank_transaction_code : Option ProprietaryBankTransactionCode
  related_parties : Option RelatedParties
  related_agents : Option RelatedAgents
  related_remittance_information : List RelatedRemittanceInformation
  deriving DecidableEq, Repr

/-- Local-variable state of `TransactionDetails.parse_xml`.  The source
initializes `related_agent = None` (note the missing `s`, a dead variable kept
here for fidelity) while the loop branch and the final constructor use
`related_agents`, which is only ever assigned inside the `RltdAgts` branch:
`related_agents = none` in this state means the Python local is UNBOUND. -/

structure TDState where
  references : Option References
  bank_transaction_code : Option ProprietaryBankTransactionCode
  related_parties : Option RelatedParties
  related_agent : Option RelatedAgents
  related_remittance_information : List RelatedRemittanceInformation
  related_agents : Option RelatedAgents
  deriving DecidableEq, Repr

def transactionDetailsStep (s : TDState) (child : Elem) : Except PyError TDState :=
  onOk (strip_ns child.tag) fun tg =>
    if tg = "Refs" then
      onOk (References.parse_xml child) fun r => Except.ok { s with references := some r }
    else if tg = "BkTxCd" then
      onOk (parse_bank_transaction_code_from_xml child) fun b =>
        Except.ok { s with bank_transaction_code := some b }
    else if tg = "RltdPties" then
      onOk (RelatedParties.parse_xml child) fun rp =>
        Except.ok { s with related_parties := some rp }
    else if tg = "RltdAgts" then
      onOk (RelatedAgents.parse_xml child) fun ra =>
        Except.ok { s with related_agents := some ra }
    else if tg = "RmtInf" then
      onOk (RelatedRemittanceInformation.parse_xml child) fun ri =>
        Except.ok { s with related_remittance_information :=
          s.related_remittance_information ++ [ri] }
    else Except.error (PyError.parseError (unknownTagMsg tg "TransactionDetails"))

/-- Reading `related_agents` at the final constructor call: when no `RltdAgts`
child bound it, Python raises `UnboundLocalError`. -/

def tdFinish (s : TDState) : Except PyError TransactionDetails :=
  match s.related_agents with
  | some ra => Except.ok ⟨s.references, s.bank_transaction_code, s.related_parties, some ra,
      s.related_remittance_information⟩
  | none => Except.error (PyError.unboundLocalError "related_agents")

def TransactionDetails.parse_xml (t : Elem) : Except PyError TransactionDetails :=
  onOk (runLoop transactionDetailsStep ⟨none, none, none, none, [], none⟩ t.children) tdFinish

def TransactionDetails.to_dict_tree (r : TransactionDetails) : Except PyError DVal :=
  onOk (serOptE r.related_agents RelatedAgents.to_dict_tree) fun ra =>
    Except.ok (DVal.dict [
      ("references", serOpt r.references References.to_dict_tree),
      ("bankTransactionCode", serOpt r.bank_transaction_code
        ProprietaryBankTransactionCode.to_dict_tree),
      ("relatedAgents", ra),
      ("relatedParties", serOpt r.related_parties RelatedParties.to_dict_tree),
      ("relatedRemittanceInformation", DVal.list
        (r.related_remittance_information.map RelatedRemittanceInformation.to_dict_tree))])

/-- `EntryDetails` (child `TxDtls`). -/

structure EntryDetails where
  transaction_details : Option TransactionDetails
  deriving DecidableEq, Repr

def entryDetailsStep (s : EntryDetails) (child : Elem) : Except PyError EntryDetails :=
  onOk (strip_ns child.tag) fun tg =>
    if tg = "TxDtls" then
      onOk (TransactionDetails.parse_xml child) fun td =>
        Except.ok { s with transaction_details := some td }
    else Except.error (PyError.parseError (unknownTagMsg tg "EntryDetails"))

def EntryDetails.parse_xml (t : Elem) : Except PyError EntryDetails :=
  runLoop entryDetailsStep ⟨none⟩ t.children

def EntryDetails.to_dict_tree (r : EntryDetails) : Except PyError DVal :=
  onOk (pyMethod r.transaction_details "to_dict_tree" TransactionDetails.to_dict_tree) fun td =>
    Except.ok (DVal.dict [("transactionDetails", td)])

/-- `Entry` (children `Amt`, `CdtDbtInd`, `Sts`, `BookgDt`, `ValDt`,
`AcctSvcrRef`, `NtryDtls`, `AddtlNtryInf`, plus the stray `BkTxCd` that is
recognized and discarded). -/

structure Entry where
  amount : Option Amount
  credit_debit : Option CreditDebit
  status : Option EntryStatus
  booking_date : Option PyDatetime
  value_date : Option PyDatetime
  account_service_reference : Option String
  details : List EntryDetails
  additional_information : Option String
  deriving DecidableEq, Repr

def entryStep (s : Entry) (child : Elem) : Except PyError Entry :=
  onOk (strip_ns child.tag) fun tg =>
    if tg = "Amt" then
      onOk (Amount.parse_xml child) fun a => Except.ok { s with amount := some a }
    else if tg = "CdtDbtInd" then
      onOk (CreditDebit.ofText child.text) fun cd => Except.ok { s with credit_debit := some cd }
    else if tg = "Sts" then
      onOk (EntryStatus.ofText child.text) fun st => Except.ok { s with status := some st }
    else if tg = "BookgDt" then
      onOk (parse_date_or_datetime child) fun d => Except.ok { s with booking_date := some d }
    else if tg = "ValDt" then
      onOk (parse_date_or_datetime child) fun d => Except.ok { s with value_date := some d }
    else if tg = "AcctSvcrRef" then Except.ok { s with account_service_reference := child.text }
    else if tg = "NtryDtls" then
      onOk (EntryDetails.parse_xml child) fun ed =>
        Except.ok { s with details := s.details ++ [ed] }
    else if tg = "AddtlNtryInf" then Except.ok { s with additional_information := child.text }
    else if tg = "BkTxCd" then Except.ok s
    else Except.error (PyError.parseError (unknownTagMsg tg "Entry"))

def Entry.parse_xml (t : Elem) : Except PyError Entry :=
  runLoop entryStep ⟨none, none, none, none, none, none, [], none⟩ t.children

def Entry.to_dict_tree (r : Entry) : Except PyError DVal :=
  onOk (pyMethod r.amount "to_dict_tree" (fun a => Except.ok (Amount.to_dict_tree a))) fun am =>
    onOk (mapDVal EntryDetails.to_dict_tree r.details) fun ds =>
      Except.ok (DVal.dict [
        ("amount", am),
        ("creditDebit", DVal.str (strOptCreditDebit r.credit_debit)),
        ("status", DVal.str (strOptEntryStatus r.status)),
        ("bookingDate", serOpt r.booking_date (fun d => DVal.str (pyIsoformat d))),
        ("valueDate", serOpt r.value_date (fun d => DVal.str (pyIsoformat d))),
        ("accountServiceReference", optStr r.account_service_reference),
        ("details", DVal.list ds),
        ("additionalInformation", optStr r.additional_information)])

/-- `Report` (children `Id`, `ElctrncSeqNb`, `CreDtTm`, `Acct`, `Bal`, `Ntry`). -/

structure Report where
  identification : Option String
  eletronic_sequence_number : Option Int
  creation_time : Option PyDatetime
  account : Option Account
  balances : List Balance
  entries : List Entry
  deriving DecidableEq, Repr

def reportStep (s : Report) (child : Elem) : Except PyError Report :=
  onOk (strip_ns child.tag) fun tg =>
    if tg = "Id" then Except.ok { s with identification := child.text }
    else if tg = "ElctrncSeqNb" then
      onOk (pyInt child.text) fun n => Except.ok { s with eletronic_sequence_number := some n }
    else if tg = "CreDtTm" then
      onOk (pyFromisoformat child.text) fun d => Except.ok { s with creation_time := some d }
    else if tg = "Acct" then
      onOk (Account.parse_xml child) fun a => Except.ok { s with account := some a }
    else if tg = "Bal" then
      onOk (Balance.parse_xml child) fun b => Except.ok { s with balances := s.balances ++ [b] }
    else if tg = "Ntry" then
      onOk (Entry.parse_xml child) fun e => Except.ok { s with entries := s.entries ++ [e] }
    else Except.error (PyError.parseError (unknownTagMsg tg "Report"))

def Report.parse_xml (t : Elem) : Except PyError Report :=
  runLoop reportStep ⟨none, none, none, none, [], []⟩ t.children

def Report.to_dict_tree (r : Report) : Except PyError DVal :=
  onOk (pyMethod r.account "to_dict_tree" (fun a => Except.ok (Account.to_dict_tree a))) fun acc =>
    onOk (mapDVal Balance.to_dict_tree r.balances) fun bs =>
      onOk (mapDVal Entry.to_dict_tree r.entries) fun es =>
        Except.ok (DVal.dict [
          ("identification", optStr r.identification),
          ("eletronicSequenceNumber", optInt r.eletronic_sequence_number),
          ("creationTime", serOpt r.creation_time (fun d => DVal.str (pyIsoformat d))),
          ("account", acc),
          ("balances", DVal.list bs),
          ("entries", DVal.list es)])

/-- `BankToCustomerAccountReport` (children `GrpHdr`, `Rpt`); its unknown-tag
message names the element, `BkToCstmrAcctRpt`. -/

structure BankToCustomerAccountReport where
  group_header : Option GroupHeader
  reports : List Report
  deriving DecidableEq, Repr

def bankToCustomerAccountReportStep (s : BankToCustomerAccountReport) (child : Elem) :
    Except PyError BankToCustomerAccountReport :=
  onOk (strip_ns child.tag) fun tg =>
    if tg = "GrpHdr" then
      onOk (GroupHeader.parse_xml child) fun gh => Except.ok { s with group_header := some gh }
    else if tg = "Rpt" then
      onOk (Report.parse_xml child) fun r => Except.ok { s with reports := s.reports ++ [r] }
    else Except.error (PyError.parseError (unknownTagMsg tg "BkToCstmrAcctRpt"))

def BankToCustomerAccountReport.parse_xml (t : Elem) :
    Except PyError BankToCustomerAccountReport :=
  runLoop bankToCustomerAccountReportStep ⟨none, []⟩ t.children

def BankToCustomerAccountReport.to_dict_tree (r : BankToCustomerAccountReport) :
    Except PyError DVal :=
  onOk (pyMethod r.group_header "to_dict_tree" GroupHeader.to_dict_tree) fun gh =>
    onOk (mapDVal Report.to_dict_tree r.reports) fun rs =>
      Except.ok (DVal.dict [("groupHeader", gh), ("reports", DVal.list rs)])

/-- `parse_etree`: root must be `Document` with exactly one `BkToCstmrAcctRpt`
child. -/

def parse_etree (root : Elem) : Except PyError BankToCustomerAccountReport :=
  onOk (strip_ns root.tag) fun rt =>
    if rt ≠ "Document" then
      Except.error (PyError.parseError ("Root must be " ++ sq ++ "Document" ++ sq))
    else
      match root.children with
      | [c] =>
        onOk (strip_ns c.tag) fun ct =>
          if ct ≠ "BkToCstmrAcctRpt" then
            Except.error (PyError.parseError "Document must be BkToCstmrAcctRpt")
          else BankToCustomerAccountReport.parse_xml c
      | _ => Except.error (PyError.parseError "Document must be BkToCstmrAcctRpt")

/-- The closed-world rejection property of a dispatch-loop parser: whenever the
children processed so far have gone through without an exception and the next
child's stripped tag is outside the parser's recognized set, the whole parse
fails with a `ParseError` whose message contains the stripped tag and the
entity name. -/

def ClosedWorld {σ α : Type} (parse : Elem → Except PyError α)
    (step : σ → Elem → Except PyError σ) (init : σ)
    (tags : List String) (entity : String) : Prop :=
  ∀ (tg : String) (ats : List (String × String)) (tx : Option String)
    (pre : List Elem) (c : Elem) (post : List Elem) (s : σ) (ctag : String),
    runLoop step init pre = Except.ok s →
    strip_ns c.tag = Except.ok ctag →
    ctag ∉ tags →
    ∃ msg, parse (Elem.mk tg ats tx (pre ++ c :: post)) =
        Except.error (PyError.parseError msg) ∧
      IsSubstr ctag msg ∧ IsSubstr entity msg

/-- Tests whether a result failed specifically with the module's own
`ParseError` kind. -/

def raisesParseError {α : Type} (x : Except PyError α) : Bool :=
  match x with
  | .error (.parseError _) => true
  | _ => false

/-- The top-level keys of a serialized map. -/

def dictKeys : DVal → List String
  | .dict es => es.map Prod.fst
  | _ => []

/-- A camelCase key contains no underscore. -/

def noUnderscore (s : String) : Bool :=
  s.data.all (fun ch => ch != Char.ofNat 95)

/-- Every key emitted by any of the `to_dict_tree` serializers, in entity
order. -/

def allSerializerKeys : List String := ["pageNumber",
  "last_page_indication",
  "messageIdentification",
  "creationTime",
  "messagePagination",
  "bicfi",
  "name",
  "other",
  "financialInstitutionIdentification",
  "iban",
  "currency",
  "servicer",
  "balanceType",
  "amount",
  "creditDebit",
  "date",
  "value",
  "currency",
  "type",
  "reference",
  "end_to_end_identification",
  "mandate_identification",
  "proprietaryReference",
  "code",
  "issuer",
  "other",
  "name",
  "identification",
  "iban",
  "debtor",
  "debtorAccount",
  "creditor",
  "creditorAccount",
  "debtorAgent",
  "creditorAgent",
  "unstructured",
  "references",
  "bankTransactionCode",
  "relatedAgents",
  "relatedParties",
  "relatedRemittanceInformation",
  "transactionDetails",
  "amount",
  "creditDebit",
  "status",
  "bookingDate",
  "valueDate",
  "accountServiceReference",
  "details",
  "additionalInformation",
  "identification",
  "eletronicSequenceNumber",
  "creationTime",
  "account",
  "balances",
  "entries",
  "groupHeader",
  "reports"]

@[simp] theorem onOk_ok {α β : Type} (v : α) (f : α → Except PyError β) :
    onOk (Except.ok v) f = f v := rfl

@[simp] theorem onOk_error {α β : Type} (e : PyError) (f : α → Except PyError β) :
    onOk (Except.error e) f = Except.error e := rfl

theorem onOk_pure {α : Type} (x : Except PyError α) :
    onOk x (fun v => Except.ok v) = x := by cases x <;> rfl

theorem onOk_assoc {α β γ : Type} (x : Except PyError α)
    (f : α → Except PyError β) (g : β → Except PyError γ) :
    onOk (onOk x f) g = onOk x (fun v => onOk (f v) g) := by cases x <;> rfl

@[simp] theorem runLoop_nil {σ : Type} (step : σ → Elem → Except PyError σ) (s : σ) :
    runLoop step s [] = Except.ok s := rfl

@[simp] theorem runLoop_cons {σ : Type} (step : σ → Elem → Except PyError σ) (s : σ)
    (c : Elem) (cs : List Elem) :
    runLoop step s (c :: cs) = onOk (step s c) (fun s2 => runLoop step s2 cs) := rfl

theorem runLoop_append {σ : Type} (step : σ → Elem → Except PyError σ) (s : σ)
    (xs ys : List Elem) :
    runLoop step s (xs ++ ys) = onOk (runLoop step s xs) (fun s2 => runLoop step s2 ys) := by
  induction xs generalizing s with
  | nil => simp
  | cons c cs ih =>
    simp only [List.cons_append, runLoop_cons, onOk_assoc]
    cases step s c with
    | ok v => simp [ih]
    | error e => simp

theorem isSubstr_mid (a x b : String) : IsSubstr x (a ++ x ++ b) := by
  unfold IsSubstr
  refine ⟨a.data, b.data, ?_⟩
  simp [String.data_append]

theorem isSubstr_of_part {x : String} {raw : String} (a b : String)
    (h : List.IsInfix x.data raw.data) : IsSubstr x (a ++ raw ++ b) := by
  unfold IsSubstr
  refine h.trans ?_
  refine ⟨a.data, b.data, ?_⟩
  simp [String.data_append]

theorem isSubstr_tag_unknownTagMsg (tg entity : String) :
    IsSubstr tg (unknownTagMsg tg entity) := by
  unfold IsSubstr unknownTagMsg
  refine ⟨("Unknown tag " ++ sq).data, (sq ++ " in " ++ entity).data, ?_⟩
  simp [String.data_append]

theorem isSubstr_entity_unknownTagMsg (tg entity : String) :
    IsSubstr entity (unknownTagMsg tg entity) := by
  unfold IsSubstr unknownTagMsg
  refine ⟨("Unknown tag " ++ sq ++ tg ++ sq ++ " in ").data, [], ?_⟩
  simp [String.data_append]

theorem isSubstr_infix_unknownChildMsg {x raw : String} (entity : String)
    (h : List.IsInfix x.data raw.data) : IsSubstr x (unknownChildMsg raw entity) := by
  unfold IsSubstr unknownChildMsg
  refine h.trans ⟨("Unknown child " ++ sq).data, (" in " ++ entity).data, ?_⟩
  simp [String.data_append]

theorem isSubstr_entity_unknownChildMsg (raw entity : String) :
    IsSubstr entity (unknownChildMsg raw entity) := by
  unfold IsSubstr unknownChildMsg
  refine ⟨("Unknown child " ++ sq ++ raw ++ " in ").data, [], ?_⟩
  simp [String.data_append]

/-- Whatever `strip_ns` returns is a substring of the raw tag. -/
theorem strip_ns_substr_of_tag {tag r : String} (h : strip_ns tag = Except.ok r) :
    List.IsInfix r.data tag.data := by
  unfold strip_ns at h
  split at h
  · exact absurd h (by simp)
  · rename_i c rest htag
    split at h
    · split at h
      · simp only [Except.ok.injEq] at h
        rw [← h]
      · rename_i b tail hdrop
        split at h
        · simp only [Except.ok.injEq] at h
          rw [← h]
        · simp only [Except.ok.injEq] at h
          rw [← h, htag]
          have hsplit := List.takeWhile_append_dropWhile (fun x => decide (x ≠ cbr)) rest
          rw [hdrop] at hsplit
          refine ⟨c :: List.takeWhile (fun x => decide (x ≠ cbr)) rest ++ [b], [], ?_⟩
          simp only [List.append_nil, List.cons_append, List.append_assoc,
            List.singleton_append, List.nil_append]
          rw [hsplit]
    · simp only [Except.ok.injEq] at h
      rw [← h]

theorem closedWorld_mk {σ α : Type} {parse : Elem → Except PyError α}
    {step : σ → Elem → Except PyError σ} {init : σ} {tags : List String} {entity : String}
    (cont : σ → Except PyError α)
    (hP : ∀ t, parse t = onOk (runLoop step init t.children) cont)
    (hstep : ∀ (s : σ) (c : Elem) (ctag : String), strip_ns c.tag = Except.ok ctag →
      ctag ∉ tags → ∃ msg, step s c = Except.error (PyError.parseError msg) ∧
        IsSubstr ctag msg ∧ IsSubstr entity msg) :
    ClosedWorld parse step init tags entity := by
  intro tg ats tx pre c post s ctag hpre hstrip hmem
  obtain ⟨msg, hstep2, hs1, hs2⟩ := hstep s c ctag hstrip hmem
  refine ⟨msg, ?_, hs1, hs2⟩
  rw [hP]
  show onOk (runLoop step init (pre ++ c :: post)) cont = _
  rw [runLoop_append, hpre, onOk_ok, runLoop_cons, hstep2, onOk_error, onOk_error]

theorem messagePaginationStep_unknown (s : MessagePagination) (c : Elem) (ctag : String)
    (h1 : strip_ns c.tag = Except.ok ctag)
    (h2 : ctag ∉ (["PgNb", "LastPgInd"] : List String)) :
    ∃ msg, messagePaginationStep s c = Except.error (PyError.parseError msg) ∧
      IsSubstr ctag msg ∧ IsSubstr "MessagePagination" msg := by
  simp only [List.mem_cons, List.not_mem_nil, or_false, not_or] at h2
  refine ⟨unknownChildMsg c.tag "MessagePagination", ?_, isSubstr_infix_unknownChildMsg "MessagePagination" (strip_ns_substr_of_tag h1),
    isSubstr_entity_unknownChildMsg _ _⟩
  simp only [messagePaginationStep, h1, onOk_ok]
  rw [if_neg h2.1, if_neg h2.2]

theorem groupHeaderStep_unknown (s : GroupHeader) (c : Elem) (ctag : String)
    (h1 : strip_ns c.tag = Except.ok ctag)
    (h2 : ctag ∉ (["MsgId", "CreDtTm", "MsgPgntn"] : List String)) :
    ∃ msg, groupHeaderStep s c = Except.error (PyError.parseError msg) ∧
      IsSubstr ctag msg ∧ IsSubstr "GroupHeader" msg := by
  simp only [List.mem_cons, List.not_mem_nil, or_false, not_or] at h2
  refine ⟨unknownChildMsg c.tag "GroupHeader", ?_, isSubstr_infix_unknownChildMsg "GroupHeader" (strip_ns_substr_of_tag h1),
    isSubstr_entity_unknownChildMsg _ _⟩
  simp only [groupHeaderStep, h1, onOk_ok]
  rw [if_neg h2.1, if_neg h2.2.1, if_neg h2.2.2]

theorem financialInstitutionIdentificationStep_unknown (s : FinancialInstitutionIdentification) (c : Elem) (ctag : String)
    (h1 : strip_ns c.tag = Except.ok ctag)
    (h2 : ctag ∉ (["BIC", "Nm", "Othr"] : List String)) :
    ∃ msg, financialInstitutionIdentificationStep s c = Except.error (PyError.parseError msg) ∧
      IsSubstr ctag msg ∧ IsSubstr "FinancialInstitutionIdentification" msg := by
  simp only [List.mem_cons, List.not_mem_nil, or_false, not_or] at h2
  refine ⟨unknownTagMsg ctag "FinancialInstitutionIdentification", ?_, isSubstr_tag_unknownTagMsg _ _,
    isSubstr_entity_unknownTagMsg _ _⟩
  simp only [financialInstitutionIdentificationStep, h1, onOk_ok]
  rw [if_neg h2.1, if_neg h2.2.1, if_neg h2.2.2]

theorem servicerStep_unknown (s : Servicer) (c : Elem) (ctag : String)
    (h1 : strip_ns c.tag = Except.ok ctag)
    (h2 : ctag ∉ (["FinInstnId"] : List String)) :
    ∃ msg, servicerStep s c = Except.error (PyError.parseError msg) ∧
      IsSubstr ctag msg ∧ IsSubstr "Servicer" msg := by
  simp only [List.mem_cons, List.not_mem_nil, or_false, not_or] at h2
  refine ⟨unknownTagMsg ctag "Servicer", ?_, isSubstr_tag_unknownTagMsg _ _,
    isSubstr_entity_unknownTagMsg _ _⟩
  simp only [servicerStep, h1, onOk_ok]
  rw [if_neg h2]

theorem accountStep_unknown (s : Account) (c : Elem) (ctag : String)
    (h1 : strip_ns c.tag = Except.ok ctag)
    (h2 : ctag ∉ (["Id", "Ccy", "Svcr"] : List String)) :
    ∃ msg, accountStep s c = Except.error (PyError.parseError msg) ∧
      IsSubstr ctag msg ∧ IsSubstr "Account" msg := by
  simp only [List.mem_cons, List.not_mem_nil, or_false, not_or] at h2
  refine ⟨unknownTagMsg ctag "Account", ?_, isSubstr_tag_unknownTagMsg _ _,
    isSubstr_entity_unknownTagMsg _ _⟩
  simp only [accountStep, h1, onOk_ok]
  rw [if_neg h2.1, if_neg h2.2.1, if_neg h2.2.2]

theorem balanceStep_unknown (s : Balance) (c : Elem) (ctag : String)
    (h1 : strip_ns c.tag = Except.ok ctag)
    (h2 : ctag ∉ (["Tp", "Amt", "CdtDbtInd", "Dt"] : List String)) :
    ∃ msg, balanceStep s c = Except.error (PyError.parseError msg) ∧
      IsSubstr ctag msg ∧ IsSubstr "Balance" msg := by
  simp only [List.mem_cons, List.not_mem_nil, or_false, not_or] at h2
  refine ⟨unknownTagMsg ctag "Balance", ?_, isSubstr_tag_unknownTagMsg _ _,
    isSubstr_entity_unknownTagMsg _ _⟩
  simp only [balanceStep, h1, onOk_ok]
  rw [if_neg h2.1, if_neg h2.2.1, if_neg h2.2.2.1, if_neg h2.2.2.2]

theorem proprietaryReferenceStep_unknown (s : ProprietaryReference) (c : Elem) (ctag : String)
    (h1 : strip_ns c.tag = Except.ok ctag)
    (h2 : ctag ∉ (["Tp", "Ref"] : List String)) :
    ∃ msg, proprietaryReferenceStep s c = Except.error (PyError.parseError msg) ∧
      IsSubstr ctag msg ∧ IsSubstr "ProprietaryReference" msg := by
  simp only [List.mem_cons, List.not_mem_nil, or_false, not_or] at h2
  refine ⟨unknownTagMsg ctag "ProprietaryReference", ?_, isSubstr_tag_unknownTagMsg _ _,
    isSubstr_entity_unknownTagMsg _ _⟩
  simp only [proprietaryReferenceStep, h1, onOk_ok]
  rw [if_neg h2.1, if_neg h2.2]

theorem referencesStep_unknown (s : References) (c : Elem) (ctag : String)
    (h1 : strip_ns c.tag = Except.ok ctag)
    (h2 : ctag ∉ (["EndToEndId", "MndtId", "Prtry"] : List String)) :
    ∃ msg, referencesStep s c = Except.error (PyError.parseError msg) ∧
      IsSubstr ctag msg ∧ IsSubstr "References" msg := by
  simp only [List.mem_cons, List.not_mem_nil, or_false, not_or] at h2
  refine ⟨unknownTagMsg ctag "References", ?_, isSubstr_tag_unknownTagMsg _ _,
    isSubstr_entity_unknownTagMsg _ _⟩
  simp only [referencesStep, h1, onOk_ok]
  rw [if_neg h2.1, if_neg h2.2.1, if_neg h2.2.2]

theorem proprietaryBankTransactionCodeStep_unknown (s : ProprietaryBankTransactionCode) (c : Elem) (ctag : String)
    (h1 : strip_ns c.tag = Except.ok ctag)
    (h2 : ctag ∉ (["Cd", "Issr"] : List String)) :
    ∃ msg, proprietaryBankTransactionCodeStep s c = Except.error (PyError.parseError msg) ∧
      IsSubstr ctag msg ∧ IsSubstr "ProprietaryBankTransactionCode" msg := by
  simp only [List.mem_cons, List.not_mem_nil, or_false, not_or] at h2
  refine ⟨unknownTagMsg ctag "ProprietaryBankTransactionCode", ?_, isSubstr_tag_unknownTagMsg _ _,
    isSubstr_entity_unknownTagMsg _ _⟩
  simp only [proprietaryBankTransactionCodeStep, h1, onOk_ok]
  rw [if_neg h2.1, if_neg h2.2]

theorem privateIdentificationStep_unknown (s : PrivateIdentification) (c : Elem) (ctag : String)
    (h1 : strip_ns c.tag = Except.ok ctag)
    (h2 : ctag ∉ (["Othr"] : List String)) :
    ∃ msg, privateIdentificationStep s c = Except.error (PyError.parseError msg) ∧
      IsSubstr ctag msg ∧ IsSubstr "PrivateIdentification" msg := by
  simp only [List.mem_cons, List.not_mem_nil, or_false, not_or] at h2
  refine ⟨unknownTagMsg ctag "PrivateIdentification", ?_, isSubstr_tag_unknownTagMsg _ _,
    isSubstr_entity_unknownTagMsg _ _⟩
  simp only [privateIdentificationStep, h1, onOk_ok]
  rw [if_neg h2]

theorem partyIdentificationStep_unknown (s : PartyIdentification) (c : Elem) (ctag : String)
    (h1 : strip_ns c.tag = Except.ok ctag)
    (h2 : ctag ∉ (["Nm", "Id"] : List String)) :
    ∃ msg, partyIdentificationStep s c = Except.error (PyError.parseError msg) ∧
      IsSubstr ctag msg ∧ IsSubstr "PartyIdentification" msg := by
  simp only [List.mem_cons, List.not_mem_nil, or_false, not_or] at h2
  refine ⟨unknownTagMsg ctag "PartyIdentification", ?_, isSubstr_tag_unknownTagMsg _ _,
    isSubstr_entity_unknownTagMsg _ _⟩
  simp only [partyIdentificationStep, h1, onOk_ok]
  rw [if_neg h2.1, if_neg h2.2]

theorem cashAccountStep_unknown (s : CashAccount) (c : Elem) (ctag : String)
    (h1 : strip_ns c.tag = Except.ok ctag)
    (h2 : ctag ∉ (["Id"] : List String)) :
    ∃ msg, cashAccountStep s c = Except.error (PyError.parseError msg) ∧
      IsSubstr ctag msg ∧ IsSubstr "CashAccount" msg := by
  simp only [List.mem_cons, List.not_mem_nil, or_false, not_or] at h2
  refine ⟨unknownTagMsg ctag "CashAccount", ?_, isSubstr_tag_unknownTagMsg _ _,
    isSubstr_entity_unknownTagMsg _ _⟩
  simp only [cashAccountStep, h1, onOk_ok]
  rw [if_neg h2]

theorem relatedPartiesStep_unknown (s : RelatedParties) (c : Elem) (ctag : String)
    (h1 : strip_ns c.tag = Except.ok ctag)
    (h2 : ctag ∉ (["Dbtr", "DbtrAcct", "Cdtr", "CdtrAcct"] : List String)) :
    ∃ msg, relatedPartiesStep s c = Except.error (PyError.parseError msg) ∧
      IsSubstr ctag msg ∧ IsSubstr "RelatedParties" msg := by
  simp only [List.mem_cons, List.not_mem_nil, or_false, not_or] at h2
  refine ⟨unknownTagMsg ctag "RelatedParties", ?_, isSubstr_tag_unknownTagMsg _ _,
    isSubstr_entity_unknownTagMsg _ _⟩
  simp only [relatedPartiesStep, h1, onOk_ok]
  rw [if_neg h2.1, if_neg h2.2.1, if_neg h2.2.2.1, if_neg h2.2.2.2]

theorem relatedAgentsStep_unknown (s : RelatedAgents) (c : Elem) (ctag : String)
    (h1 : strip_ns c.tag = Except.ok ctag)
    (h2 : ctag ∉ (["DbtrAgt", "CdtrAgt"] : List String)) :
    ∃ msg, relatedAgentsStep s c = Except.error (PyError.parseError msg) ∧
      IsSubstr ctag msg ∧ IsSubstr "RelatedAgents" msg := by
  simp only [List.mem_cons, List.not_mem_nil, or_false, not_or] at h2
  refine ⟨unknownTagMsg ctag "RelatedAgents", ?_, isSubstr_tag_unknownTagMsg _ _,
    isSubstr_entity_unknownTagMsg _ _⟩
  simp only [relatedAgentsStep, h1, onOk_ok]
  rw [if_neg h2.1, if_neg h2.2]

theorem relatedRemittanceInformationStep_unknown (s : RelatedRemittanceInformation) (c : Elem) (ctag : String)
    (h1 : strip_ns c.tag = Except.ok ctag)
    (h2 : ctag ∉ (["Ustrd"] : List String)) :
    ∃ msg, relatedRemittanceInformationStep s c = Except.error (PyError.parseError msg) ∧
      IsSubstr ctag msg ∧ IsSubstr "RelatedRemittanceInformation" msg := by
  simp only [List.mem_cons, List.not_mem_nil, or_false, not_or] at h2
  refine ⟨unknownTagMsg ctag "RelatedRemittanceInformation", ?_, isSubstr_tag_unknownTagMsg _ _,
    isSubstr_entity_unknownTagMsg _ _⟩
  simp only [relatedRemittanceInformationStep, h1, onOk_ok]
  rw [if_neg h2]

theorem transactionDetailsStep_unknown (s : TDState) (c : Elem) (ctag : String)
    (h1 : strip_ns c.tag = Except.ok ctag)
    (h2 : ctag ∉ (["Refs", "BkTxCd", "RltdPties", "RltdAgts", "RmtInf"] : List String)) :
    ∃ msg, transactionDetailsStep s c = Except.error (PyError.parseError msg) ∧
      IsSubstr ctag msg ∧ IsSubstr "TransactionDetails" msg := by
  simp only [List.mem_cons, List.not_mem_nil, or_false, not_or] at h2
  refine ⟨unknownTagMsg ctag "TransactionDetails", ?_, isSubstr_tag_unknownTagMsg _ _,
    isSubstr_entity_unknownTagMsg _ _⟩
  simp only [transactionDetailsStep, h1, onOk_ok]
  rw [if_neg h2.1, if_neg h2.2.1, if_neg h2.2.2.1, if_neg h2.2.2.2.1, if_neg h2.2.2.2.2]

theorem entryDetailsStep_unknown (s : EntryDetails) (c : Elem) (ctag : String)
    (h1 : strip_ns c.tag = Except.ok ctag)
    (h2 : ctag ∉ (["TxDtls"] : List String)) :
    ∃ msg, entryDetailsStep s c = Except.error (PyError.parseError msg) ∧
      IsSubstr ctag msg ∧ IsSubstr "EntryDetails" msg := by
  simp only [List.mem_cons, List.not_mem_nil, or_false, not_or] at h2
  refine ⟨unknownTagMsg ctag "EntryDetails", ?_, isSubstr_tag_unknownTagMsg _ _,
    isSubstr_entity_unknownTagMsg _ _⟩
  simp only [entryDetailsStep, h1, onOk_ok]
  rw [if_neg h2]

theorem entryStep_unknown (s : Entry) (c : Elem) (ctag : String)
    (h1 : strip_ns c.tag = Except.ok ctag)
    (h2 : ctag ∉ (["Amt", "CdtDbtInd", "Sts", "BookgDt", "ValDt", "AcctSvcrRef", "NtryDtls", "AddtlNtryInf", "BkTxCd"] : List String)) :
    ∃ msg, entryStep s c = Except.error (PyError.parseError msg) ∧
      IsSubstr ctag msg ∧ IsSubstr "Entry" msg := by
  simp only [List.mem_cons, List.not_mem_nil, or_false, not_or] at h2
  refine ⟨unknownTagMsg ctag "Entry", ?_, isSubstr_tag_unknownTagMsg _ _,
    isSubstr_entity_unknownTagMsg _ _⟩
  simp only [entryStep, h1, onOk_ok]
  rw [if_neg h2.1, if_neg h2.2.1, if_neg h2.2.2.1, if_neg h2.2.2.2.1, if_neg h2.2.2.2.2.1, if_neg h2.2.2.2.2.2.1, if_neg h2.2.2.2.2.2.2.1, if_neg h2.2.2.2.2.2.2.2.1, if_neg h2.2.2.2.2.2.2.2.2]

theorem reportStep_unknown (s : Report) (c : Elem) (ctag : String)
    (h1 : strip_ns c.tag = Except.ok ctag)
    (h2 : ctag ∉ (["Id", "ElctrncSeqNb", "CreDtTm", "Acct", "Bal", "Ntry"] : List String)) :
    ∃ msg, reportStep s c = Except.error (PyError.parseError msg) ∧
      IsSubstr ctag msg ∧ IsSubstr "Report" msg := by
  simp only [List.mem_cons, List.not_mem_nil, or_false, not_or] at h2
  refine ⟨unknownTagMsg ctag "Report", ?_, isSubstr_tag_unknownTagMsg _ _,
    isSubstr_entity_unknownTagMsg _ _⟩
  simp only [reportStep, h1, onOk_ok]
  rw [if_neg h2.1, if_neg h2.2.1, if_neg h2.2.2.1, if_neg h2.2.2.2.1, if_neg h2.2.2.2.2.1, if_neg h2.2.2.2.2.2]

theorem bankToCustomerAccountReportStep_unknown (s : BankToCustomerAccountReport) (c : Elem) (ctag : String)
    (h1 : strip_ns c.tag = Except.ok ctag)
    (h2 : ctag ∉ (["GrpHdr", "Rpt"] : List String)) :
    ∃ msg, bankToCustomerAccountReportStep s c = Except.error (PyError.parseError msg) ∧
      IsSubstr ctag msg ∧ IsSubstr "BkToCstmrAcctRpt" msg := by
  simp only [List.mem_cons, List.not_mem_nil, or_false, not_or] at h2
  refine ⟨unknownTagMsg ctag "BkToCstmrAcctRpt", ?_, isSubstr_tag_unknownTagMsg _ _,
    isSubstr_entity_unknownTagMsg _ _⟩
  simp only [bankToCustomerAccountReportStep, h1, onOk_ok]
  rw [if_neg h2.1, if_neg h2.2]

theorem entryStep_bktxcd (s : Entry) (c : Elem) (h : strip_ns c.tag = Except.ok "BkTxCd") :
    entryStep s c = Except.ok s := by
  simp [entryStep, h]

theorem entry_bktxcd_ignored (tg : String) (ats : List (String × String)) (tx : Option String)
    (pre post : List Elem) (c : Elem) (h : strip_ns c.tag = Except.ok "BkTxCd") :
    Entry.parse_xml (Elem.mk tg ats tx (pre ++ c :: post)) =
      Entry.parse_xml (Elem.mk tg ats tx (pre ++ post)) := by
  show runLoop entryStep ⟨none, none, none, none, none, none, [], none⟩ (pre ++ c :: post) =
    runLoop entryStep ⟨none, none, none, none, none, none, [], none⟩ (pre ++ post)
  rw [runLoop_append, runLoop_append]
  cases hq : runLoop entryStep ⟨none, none, none, none, none, none, [], none⟩ pre with
  | error e => rfl
  | ok s2 => simp [entryStep_bktxcd s2 c h]

theorem btc_choice_unknown (t c : Elem) (ctag ptag : String) (hch : t.children = [c])
    (h1 : strip_ns c.tag = Except.ok ctag) (hne : ctag ≠ "Prtry")
    (hpt : strip_ns t.tag = Except.ok ptag) :
    parse_bank_transaction_code_from_xml t =
      Except.error (PyError.parseError (unknownTagMsg ptag "BankTransactionCode")) := by
  simp only [parse_bank_transaction_code_from_xml, hch, h1, onOk_ok, if_neg hne, hpt]

theorem ident_choice_unknown (t c : Elem) (ctag ptag : String) (hch : t.children = [c])
    (h1 : strip_ns c.tag = Except.ok ctag) (hne : ctag ≠ "PrvtId")
    (hpt : strip_ns t.tag = Except.ok ptag) :
    parse_identification_from_xml t =
      Except.error (PyError.parseError (unknownTagMsg ptag "Identification")) := by
  simp only [parse_identification_from_xml, hch, h1, onOk_ok, if_neg hne, hpt]

/-- Claim C1 (amended).  For every dispatch-loop entity parser, a direct child
whose stripped tag is outside that entity's fixed recognized set makes the
parse fail immediately with a `ParseError` whose message names the offending
tag and the enclosing entity (never a silent skip); inside `Entry`, a child
tagged `BkTxCd` is accepted and ignored, and the resulting `Entry` equals the
one parsed with that child removed.  Amendment: the two single-child choice
parsers (`BankTransactionCode`, `Identification`) also reject an unrecognized
sole child with a `ParseError`, but its message names the enclosing element's
tag (`strip_ns(tree.tag)`), not the offending child's. -/
theorem claim1_amended :
    ClosedWorld MessagePagination.parse_xml messagePaginationStep ⟨none, none⟩
        ["PgNb", "LastPgInd"] "MessagePagination" ∧
    ClosedWorld GroupHeader.parse_xml groupHeaderStep ⟨none, none, none⟩
        ["MsgId", "CreDtTm", "MsgPgntn"] "GroupHeader" ∧
    ClosedWorld FinancialInstitutionIdentification.parse_xml financialInstitutionIdentificationStep ⟨none, none, none⟩
        ["BIC", "Nm", "Othr"] "FinancialInstitutionIdentification" ∧
    ClosedWorld Servicer.parse_xml servicerStep ⟨none⟩
        ["FinInstnId"] "Servicer" ∧
    ClosedWorld Account.parse_xml accountStep ⟨none, none, none⟩
        ["Id", "Ccy", "Svcr"] "Account" ∧
    ClosedWorld Balance.parse_xml balanceStep ⟨none, none, none, none⟩
        ["Tp", "Amt", "CdtDbtInd", "Dt"] "Balance" ∧
    ClosedWorld ProprietaryReference.parse_xml proprietaryReferenceStep ⟨none, none⟩
        ["Tp", "Ref"] "ProprietaryReference" ∧
    ClosedWorld References.parse_xml referencesStep ⟨none, none, []⟩
        ["EndToEndId", "MndtId", "Prtry"] "References" ∧
    ClosedWorld ProprietaryBankTransactionCode.parse_xml proprietaryBankTransactionCodeStep ⟨none, none⟩
        ["Cd", "Issr"] "ProprietaryBankTransactionCode" ∧
    ClosedWorld PrivateIdentification.parse_xml privateIdentificationStep ⟨none⟩
        ["Othr"] "PrivateIdentification" ∧
    ClosedWorld PartyIdentification.parse_xml partyIdentificationStep ⟨none, none⟩
        ["Nm", "Id"] "PartyIdentification" ∧
    ClosedWorld CashAccount.parse_xml cashAccountStep ⟨none⟩
        ["Id"] "CashAccount" ∧
    ClosedWorld RelatedParties.parse_xml relatedPartiesStep ⟨none, none, none, none⟩
        ["Dbtr", "DbtrAcct", "Cdtr", "CdtrAcct"] "RelatedParties" ∧
    ClosedWorld RelatedAgents.parse_xml relatedAgentsStep ⟨none, none⟩
        ["DbtrAgt", "CdtrAgt"] "RelatedAgents" ∧
    ClosedWorld RelatedRemittanceInformation.parse_xml relatedRemittanceInformationStep ⟨none⟩
        ["Ustrd"] "RelatedRemittanceInformation" ∧
    ClosedWorld TransactionDetails.parse_xml transactionDetailsStep ⟨none, none, none, none, [], none⟩
        ["Refs", "BkTxCd", "RltdPties", "RltdAgts", "RmtInf"] "TransactionDetails" ∧
    ClosedWorld EntryDetails.parse_xml entryDetailsStep ⟨none⟩
        ["TxDtls"] "EntryDetails" ∧
    ClosedWorld Entry.parse_xml entryStep ⟨none, none, none, none, none, none, [], none⟩
        ["Amt", "CdtDbtInd", "Sts", "BookgDt", "ValDt", "AcctSvcrRef", "NtryDtls", "AddtlNtryInf", "BkTxCd"] "Entry" ∧
    ClosedWorld Report.parse_xml reportStep ⟨none, none, none, none, [], []⟩
        ["Id", "ElctrncSeqNb", "CreDtTm", "Acct", "Bal", "Ntry"] "Report" ∧
    ClosedWorld BankToCustomerAccountReport.parse_xml bankToCustomerAccountReportStep ⟨none, []⟩
        ["GrpHdr", "Rpt"] "BkToCstmrAcctRpt" ∧
    (∀ (tg : String) (ats : List (String × String)) (tx : Option String)
        (pre post : List Elem) (c : Elem), strip_ns c.tag = Except.ok "BkTxCd" →
      Entry.parse_xml (Elem.mk tg ats tx (pre ++ c :: post)) =
        Entry.parse_xml (Elem.mk tg ats tx (pre ++ post))) ∧
    (∀ (t c : Elem) (ctag ptag : String), t.children = [c] →
        strip_ns c.tag = Except.ok ctag → ctag ≠ "Prtry" → strip_ns t.tag = Except.ok ptag →
      parse_bank_transaction_code_from_xml t =
        Except.error (PyError.parseError (unknownTagMsg ptag "BankTransactionCode"))) ∧
    (∀ (t c : Elem) (ctag ptag : String), t.children = [c] →
        strip_ns c.tag = Except.ok ctag → ctag ≠ "PrvtId" → strip_ns t.tag = Except.ok ptag →
      parse_identification_from_xml t =
        Except.error (PyError.parseError (unknownTagMsg ptag "Identification"))) := by
  refine ⟨?_, ?_, ?_, ?_, ?_, ?_, ?_, ?_, ?_, ?_, ?_, ?_, ?_, ?_, ?_, ?_, ?_, ?_, ?_, ?_, ?_, ?_, ?_⟩
  · exact closedWorld_mk (fun v => Except.ok v)
      (fun t => by unfold MessagePagination.parse_xml; rw [onOk_pure]) messagePaginationStep_unknown
  · exact closedWorld_mk (fun v => Except.ok v)
      (fun t => by unfold GroupHeader.parse_xml; rw [onOk_pure]) groupHeaderStep_unknown
  · exact closedWorld_mk (fun v => Except.ok v)
      (fun t => by unfold FinancialInstitutionIdentification.parse_xml; rw [onOk_pure]) financialInstitutionIdentificationStep_unknown
  · exact closedWorld_mk (fun v => Except.ok v)
      (fun t => by unfold Servicer.parse_xml; rw [onOk_pure]) servicerStep_unknown
  · exact closedWorld_mk (fun v => Except.ok v)
      (fun t => by unfold Account.parse_xml; rw [onOk_pure]) accountStep_unknown
  · exact closedWorld_mk (fun v => Except.ok v)
      (fun t => by unfold Balance.parse_xml; rw [onOk_pure]) balanceStep_unknown
  · exact closedWorld_mk (fun v => Except.ok v)
      (fun t => by unfold ProprietaryReference.parse_xml; rw [onOk_pure]) proprietaryReferenceStep_unknown
  · exact closedWorld_mk (fun v => Except.ok v)
      (fun t => by unfold References.parse_xml; rw [onOk_pure]) referencesStep_unknown
  · exact closedWorld_mk (fun v => Except.ok v)
      (fun t => by unfold ProprietaryBankTransactionCode.parse_xml; rw [onOk_pure]) proprietaryBankTransactionCodeStep_unknown
  · exact closedWorld_mk (fun v => Except.ok v)
      (fun t => by unfold PrivateIdentification.parse_xml; rw [onOk_pure]) privateIdentificationStep_unknown
  · exact closedWorld_mk (fun v => Except.ok v)
      (fun t => by unfold PartyIdentification.parse_xml; rw [onOk_pure]) partyIdentificationStep_unknown
  · exact closedWorld_mk (fun v => Except.ok v)
      (fun t => by unfold CashAccount.parse_xml; rw [onOk_pure]) cashAccountStep_unknown
  · exact closedWorld_mk (fun v => Except.ok v)
      (fun t => by unfold RelatedParties.parse_xml; rw [onOk_pure]) relatedPartiesStep_unknown
  · exact closedWorld_mk (fun v => Except.ok v)
      (fun t => by unfold RelatedAgents.parse_xml; rw [onOk_pure]) relatedAgentsStep_unknown
  · exact closedWorld_mk (fun v => Except.ok v)
      (fun t => by unfold RelatedRemittanceInformation.parse_xml; rw [onOk_pure]) relatedRemittanceInformationStep_unknown
  · exact closedWorld_mk tdFinish (fun t => rfl) transactionDetailsStep_unknown
  · exact closedWorld_mk (fun v => Except.ok v)
      (fun t => by unfold EntryDetails.parse_xml; rw [onOk_pure]) entryDetailsStep_unknown
  · exact closedWorld_mk (fun v => Except.ok v)
      (fun t => by unfold Entry.parse_xml; rw [onOk_pure]) entryStep_unknown
  · exact closedWorld_mk (fun v => Except.ok v)
      (fun t => by unfold Report.parse_xml; rw [onOk_pure]) reportStep_unknown
  · exact closedWorld_mk (fun v => Except.ok v)
      (fun t => by unfold BankToCustomerAccountReport.parse_xml; rw [onOk_pure]) bankToCustomerAccountReportStep_unknown
  · exact entry_bktxcd_ignored
  · exact btc_choice_unknown
  · exact ident_choice_unknown

/-- Witness for C1: the MessagePagination component applied to a concrete
element whose only child is the unknown tag `Bogus`. -/
theorem claim1_witness :
    ∃ msg, MessagePagination.parse_xml (Elem.mk "MsgPgntn" [] none
        ([] ++ Elem.mk "Bogus" [] none [] :: [])) =
      Except.error (PyError.parseError msg) ∧
      IsSubstr "Bogus" msg ∧ IsSubstr "MessagePagination" msg :=
  claim1_amended.1 "MsgPgntn" [] none [] (Elem.mk "Bogus" [] none []) [] ⟨none, none⟩ "Bogus"
    rfl rfl (by decide)

/-- Counterexample to C1 as stated: inside the `BankTransactionCode` choice, an
unknown sole child `Domn` produces a `ParseError` whose message does NOT name
the offending tag (it interpolates the parent element's tag instead). -/
theorem claim1_counterexample :
    parse_bank_transaction_code_from_xml
        (Elem.mk "BkTxCd" [] none [Elem.mk "Domn" [] none []]) =
      Except.error (PyError.parseError (unknownTagMsg "BkTxCd" "BankTransactionCode")) ∧
    ¬ IsSubstr "Domn" (unknownTagMsg "BkTxCd" "BankTransactionCode") := by
  constructor
  · rfl
  · decide

/-- Claim C2 (code behavior at the decisive inputs).  A `TxDtls` element
without an `RltdAgts` child does NOT parse to a record with the field unset:
the source initializes `related_agent = None` but returns `related_agents`, so
the parse raises `UnboundLocalError`.  And a `Rpt` element without an `Acct`
child parses successfully with `account` unset instead of failing. -/
theorem claim2_code_behavior :
    TransactionDetails.parse_xml (Elem.mk "TxDtls" [] none
        [Elem.mk "Refs" [] none [Elem.mk "EndToEndId" [] (some "E2E") []]]) =
      Except.error (PyError.unboundLocalError "related_agents") ∧
    Report.parse_xml (Elem.mk "Rpt" [] none [Elem.mk "Id" [] (some "R1") []]) =
      Except.ok (Report.mk (some "R1") none none none [] []) := by
  constructor <;> rfl

/-- Claim C4: the party-choice resolver returns the institution variant parsed
from the sole child exactly when the element has one child whose stripped tag
is `FinInstnId`; every other shape (zero children, several children, or one
child with another tag) parses the whole element as a `PartyIdentification`,
and the institution-shape test is evaluated first. -/
theorem claim4_partychoice :
    (∀ (t c : Elem), t.children = [c] → strip_ns c.tag = Except.ok "FinInstnId" →
      parse_partchoice_from_xml t =
        onOk (FinancialInstitutionIdentification.parse_xml c)
          (fun f => Except.ok (PartyChoice.fin f))) ∧
    (∀ (t c : Elem) (ctag : String), t.children = [c] → strip_ns c.tag = Except.ok ctag →
      ctag ≠ "FinInstnId" →
      parse_partchoice_from_xml t =
        onOk (PartyIdentification.parse_xml t) (fun p => Except.ok (PartyChoice.party p))) ∧
    (∀ t : Elem, t.children.length ≠ 1 →
      parse_partchoice_from_xml t =
        onOk (PartyIdentification.parse_xml t) (fun p => Except.ok (PartyChoice.party p))) := by
  refine ⟨?_, ?_, ?_⟩
  · intro t c hch h1
    simp [parse_partchoice_from_xml, hch, h1]
  · intro t c ctag hch h1 hne
    simp [parse_partchoice_from_xml, hch, h1, hne]
  · intro t hlen
    cases hch : t.children with
    | nil => simp [parse_partchoice_from_xml, hch]
    | cons c1 rest =>
      cases rest with
      | nil => exact absurd (by rw [hch]; rfl) hlen
      | cons c2 rest2 => simp [parse_partchoice_from_xml, hch]

/-- Witness for C4 at a concrete single-`FinInstnId` element. -/
theorem claim4_witness :
    parse_partchoice_from_xml (Elem.mk "Dbtr" [] none [Elem.mk "FinInstnId" [] none []]) =
      onOk (FinancialInstitutionIdentification.parse_xml (Elem.mk "FinInstnId" [] none []))
        (fun f => Except.ok (PartyChoice.fin f)) :=
  claim4_partychoice.1 (Elem.mk "Dbtr" [] none [Elem.mk "FinInstnId" [] none []])
    (Elem.mk "FinInstnId" [] none []) rfl rfl

/-- Claim C5 (code behavior at the decisive inputs).  The source's assertion
checks `len(child[0]) == 1` — the child count of the agent wrapper's FIRST
child — rather than `len(child) == 1`.  Consequently a `DbtrAgt` whose sole
`FinInstnId` child carries two fields (exactly the shape the claim requires to
succeed) dies with an `AssertionError`, while a `DbtrAgt` with a one-field
`FinInstnId` plus a junk sibling (a shape the claim requires to fail) parses
fine, silently ignoring the sibling. -/
theorem claim5_code_behavior :
    RelatedAgents.parse_xml (Elem.mk "RltdAgts" [] none
        [Elem.mk "DbtrAgt" [] none [Elem.mk "FinInstnId" [] none
          [Elem.mk "BIC" [] (some "X") [], Elem.mk "Nm" [] (some "N") []]]]) =
      Except.error PyError.assertionError ∧
    RelatedAgents.parse_xml (Elem.mk "RltdAgts" [] none
        [Elem.mk "DbtrAgt" [] none [Elem.mk "FinInstnId" [] none
          [Elem.mk "BIC" [] (some "X") []], Elem.mk "Junk" [] none []]]) =
      Except.ok (RelatedAgents.mk
        (some (FinancialInstitutionIdentification.mk (some "X") none none)) none) := by
  constructor <;> rfl

theorem balanceTypeOfCode_notmem {code : String}
    (hm : code ∉ (["CLAV", "CLBD", "FWAV", "OPBD", "PRCD", "OPAV"] : List String)) :
    balanceTypeOfCode (some code) =
      Except.error (PyError.valueError (enumValueMsg (some code) "BalanceType")) := by
  simp only [List.mem_cons, List.not_mem_nil, or_false, not_or] at hm
  unfold balanceTypeOfCode
  split <;> simp_all

theorem balanceTypeOfCode_ok {o : Option String} {b : BalanceType}
    (h : balanceTypeOfCode o = Except.ok b) :
    ∃ code, o = some code ∧
      code ∈ (["CLAV", "CLBD", "FWAV", "OPBD", "PRCD", "OPAV"] : List String) := by
  rcases o with _ | code
  · exact absurd h (by simp [balanceTypeOfCode])
  · by_cases hm : code ∈ (["CLAV", "CLBD", "FWAV", "OPBD", "PRCD", "OPAV"] : List String)
    · exact ⟨code, rfl, hm⟩
    · rw [balanceTypeOfCode_notmem hm] at h
      exact absurd h (by simp)

/-- Claim C6 (amended): `BalanceType.parse_xml` succeeds exactly on a `Tp`
element with a sole `CdOrPrtry` child with a sole `Cd` child whose text is one
of the six codes; and a `CdOrPrtry` with a `Prtry` child instead of `Cd`
fails — amendment: via a message-less `AssertionError`, not the
message-carrying structural `ParseError`. -/
theorem claim6_amended :
    (∀ t : Elem, (∃ b, BalanceType.parse_xml t = Except.ok b) ↔
      (∃ c1 c2 code, t.children = [c1] ∧ strip_ns c1.tag = Except.ok "CdOrPrtry" ∧
        c1.children = [c2] ∧ strip_ns c2.tag = Except.ok "Cd" ∧ c2.text = some code ∧
        code ∈ (["CLAV", "CLBD", "FWAV", "OPBD", "PRCD", "OPAV"] : List String))) ∧
    (∀ (t c1 c2 : Elem), t.children = [c1] → strip_ns c1.tag = Except.ok "CdOrPrtry" →
      c1.children = [c2] → strip_ns c2.tag = Except.ok "Prtry" →
      BalanceType.parse_xml t = Except.error PyError.assertionError) := by
  constructor
  · intro t
    constructor
    · rintro ⟨b, hb⟩
      unfold BalanceType.parse_xml at hb
      split at hb
      · rename_i c1 hch
        cases hs1 : strip_ns c1.tag with
        | error e => rw [hs1] at hb; exact absurd hb (by simp)
        | ok s1 =>
          simp only [hs1, onOk_ok] at hb
          by_cases h1 : s1 = "CdOrPrtry"
          · rw [if_pos h1] at hb
            split at hb
            · rename_i c2 hch2
              cases hs2 : strip_ns c2.tag with
              | error e => rw [hs2] at hb; exact absurd hb (by simp)
              | ok s2 =>
                simp only [hs2, onOk_ok] at hb
                by_cases h2 : s2 = "Cd"
                · rw [if_pos h2] at hb
                  obtain ⟨code, hc, hmem⟩ := balanceTypeOfCode_ok hb
                  subst h1; subst h2
                  exact ⟨c1, c2, code, hch, hs1, hch2, hs2, hc, hmem⟩
                · rw [if_neg h2] at hb; exact absurd hb (by simp)
            · exact absurd hb (by simp)
          · rw [if_neg h1] at hb; exact absurd hb (by simp)
      · exact absurd hb (by simp)
    · rintro ⟨c1, c2, code, hch, hs1, hch2, hs2, htxt, hmem⟩
      simp only [List.mem_cons, List.not_mem_nil, or_false] at hmem
      have heq : BalanceType.parse_xml t = balanceTypeOfCode c2.text := by
        simp [BalanceType.parse_xml, hch, hs1, hch2, hs2]
      rw [heq, htxt]
      rcases hmem with h | h | h | h | h | h <;> subst h <;> exact ⟨_, rfl⟩
  · intro t c1 c2 hch hs1 hch2 hs2
    simp [BalanceType.parse_xml, hch, hs1, hch2, hs2]

/-- Witness for C6: the characterization applied to a concrete well-shaped
`Tp` element carrying the code `CLBD`. -/
theorem claim6_witness :
    ∃ b, BalanceType.parse_xml (Elem.mk "Tp" [] none [Elem.mk "CdOrPrtry" [] none
        [Elem.mk "Cd" [] (some "CLBD") []]]) = Except.ok b :=
  (claim6_amended.1 (Elem.mk "Tp" [] none [Elem.mk "CdOrPrtry" [] none
      [Elem.mk "Cd" [] (some "CLBD") []]])).mpr
    ⟨Elem.mk "CdOrPrtry" [] none [Elem.mk "Cd" [] (some "CLBD") []],
      Elem.mk "Cd" [] (some "CLBD") [], "CLBD", rfl, rfl, rfl, rfl, rfl, by decide⟩

/-- Counterexample to C6 as stated: the `Prtry`-instead-of-`Cd` shape does
fail, but with a bare `AssertionError` carrying no message — not the
message-carrying structural `ParseError` the spec's error model describes. -/
theorem claim6_counterexample :
    BalanceType.parse_xml (Elem.mk "Tp" [] none [Elem.mk "CdOrPrtry" [] none
        [Elem.mk "Prtry" [] (some "X") []]]) = Except.error PyError.assertionError ∧
    raisesParseError (BalanceType.parse_xml (Elem.mk "Tp" [] none [Elem.mk "CdOrPrtry" [] none
        [Elem.mk "Prtry" [] (some "X") []]])) = false := by
  constructor <;> rfl

theorem onOk_eq_ok {α β : Type} {x : Except PyError α} {f : α → Except PyError β} {b : β}
    (h : onOk x f = Except.ok b) : ∃ a, x = Except.ok a ∧ f a = Except.ok b := by
  cases x with
  | ok a => exact ⟨a, rfl, h⟩
  | error e => exact absurd h (by simp)

/-- Claim C3 (amended): every primitive-decode failure — unparsable date or
date-time text, non-numeric integer text, unknown enum code (`CreditDebit`,
`EntryStatus`, `BalanceType`) — surfaces as the SAME single kind as the other
primitive failures, namely `ValueError`; but that kind is distinct from the
module's structural `ParseError` (the one carrying the descriptive tag/entity
message): the failures are not wrapped.  The last three conjuncts show the
`ValueError`s surfacing unchanged through entity parsers. -/
theorem claim3_amended :
    (∀ s : String, parseIntCore s = none →
      pyInt (some s) = Except.error (PyError.valueError (invalidIntMsg s))) ∧
    (∀ s : String, parseIsoCore s = none →
      pyFromisoformat (some s) = Except.error (PyError.valueError (invalidIsoMsg s))) ∧
    (∀ txt : Option String, txt ≠ some "CRDT" → txt ≠ some "DBIT" →
      CreditDebit.ofText txt =
        Except.error (PyError.valueError (enumValueMsg txt "CreditDebit"))) ∧
    (∀ txt : Option String, txt ∉ ([some "BOOK", some "INFO", some "PDNG", some "FUTR"] :
        List (Option String)) →
      EntryStatus.ofText txt =
        Except.error (PyError.valueError (enumValueMsg txt "EntryStatus"))) ∧
    (∀ txt : Option String, txt ∉ ([some "CLAV", some "CLBD", some "FWAV", some "OPBD",
        some "PRCD", some "OPAV"] : List (Option String)) →
      balanceTypeOfCode txt =
        Except.error (PyError.valueError (enumValueMsg txt "BalanceType"))) ∧
    (∀ m1 m2 : String, PyError.valueError m1 ≠ PyError.parseError m2) ∧
    MessagePagination.parse_xml (Elem.mk "MsgPgntn" [] none
        [Elem.mk "PgNb" [] (some "abc") []]) =
      Except.error (PyError.valueError (invalidIntMsg "abc")) ∧
    Balance.parse_xml (Elem.mk "Bal" [] none [Elem.mk "CdtDbtInd" [] (some "XXXX") []]) =
      Except.error (PyError.valueError (enumValueMsg (some "XXXX") "CreditDebit")) ∧
    Balance.parse_xml (Elem.mk "Bal" [] none [Elem.mk "Dt" [] none
        [Elem.mk "Dt" [] (some "banana") []]]) =
      Except.error (PyError.valueError (invalidIsoMsg "banana")) := by
  refine ⟨?_, ?_, ?_, ?_, ?_, ?_, ?_, ?_, ?_⟩
  · intro s h; simp [pyInt, h]
  · intro s h; simp [pyFromisoformat, h]
  · intro txt h1 h2
    unfold CreditDebit.ofText
    split <;> simp_all
  · intro txt hm
    simp only [List.mem_cons, List.not_mem_nil, or_false, not_or] at hm
    unfold EntryStatus.ofText
    split <;> simp_all
  · intro txt hm
    simp only [List.mem_cons, List.not_mem_nil, or_false, not_or] at hm
    unfold balanceTypeOfCode
    split <;> simp_all
  · intro m1 m2 h; exact PyError.noConfusion h
  · rfl
  · rfl
  · rfl

/-- Witness for C3: the integer conjunct at the concrete non-numeric text. -/
theorem claim3_witness :
    pyInt (some "abc") = Except.error (PyError.valueError (invalidIntMsg "abc")) :=
  claim3_amended.1 "abc" rfl

/-- Counterexample to C3 as stated: a non-numeric `PgNb` makes the pagination
parse fail, but the failure is NOT the module's structural parse-error kind
(it is the uncaught builtin `ValueError`). -/
theorem claim3_counterexample :
    (MessagePagination.parse_xml (Elem.mk "MsgPgntn" [] none
        [Elem.mk "PgNb" [] (some "abc") []])).isOk = false ∧
    raisesParseError (MessagePagination.parse_xml (Elem.mk "MsgPgntn" [] none
        [Elem.mk "PgNb" [] (some "abc") []])) = false := by
  constructor <;> rfl

/-- Claim C7 (amended): value round-trip holds for plain string leaves — an
`Amount`'s `Ccy` attribute and string texts such as `ProprietaryReference`'s
`Tp`/`Ref` are stored and re-emitted verbatim — but NOT for the other scalar
leaves: enum leaves are emitted as the Python debug string
(`CreditDebit.Credit`, `EntryStatus.Booked`, …), never equal to the wire code
that was parsed; a date-only leaf is normalized to a full midnight timestamp;
and the amount value is emitted as the parsed number, not the source text. -/
theorem claim7_amended :
    (∀ (t : Elem) (a : Amount), Amount.parse_xml t = Except.ok a →
      pyAttr t "Ccy" = Except.ok a.currency ∧
      Amount.to_dict_tree a =
        DVal.dict [("value", DVal.float a.value), ("currency", DVal.str a.currency)]) ∧
    (∀ tp rf : String,
      ProprietaryReference.parse_xml (Elem.mk "Prtry" [] none
          [Elem.mk "Tp" [] (some tp) [], Elem.mk "Ref" [] (some rf) []]) =
        Except.ok (ProprietaryReference.mk (some tp) (some rf)) ∧
      ProprietaryReference.to_dict_tree (ProprietaryReference.mk (some tp) (some rf)) =
        DVal.dict [("type", DVal.str tp), ("reference", DVal.str rf)]) ∧
    (∀ cd : CreditDebit, strOptCreditDebit (some cd) ≠ CreditDebit.value cd) ∧
    (∀ st : EntryStatus, strOptEntryStatus (some st) ≠ EntryStatus.value st) ∧
    (∀ bt : BalanceType, strOptBalanceType (some bt) ≠ BalanceType.value bt) ∧
    (pyFromisoformat (some "2024-01-05") =
      Except.ok (PyDatetime.mk 2024 1 5 0 0 0 0 none) ∧
    pyIsoformat (PyDatetime.mk 2024 1 5 0 0 0 0 none) = "2024-01-05T00:00:00" ∧
    "2024-01-05T00:00:00" ≠ "2024-01-05") := by
  refine ⟨?_, ?_, ?_, ?_, ?_, ?_, ?_, ?_⟩
  · intro t a h
    unfold Amount.parse_xml at h
    obtain ⟨v, hv, h⟩ := onOk_eq_ok h
    obtain ⟨c, hc, h⟩ := onOk_eq_ok h
    cases h
    exact ⟨hc, rfl⟩
  · intro tp rf
    exact ⟨rfl, rfl⟩
  · intro cd; cases cd <;> decide
  · intro st; cases st <;> decide
  · intro bt; cases bt <;> decide
  · rfl
  · rfl
  · decide

/-- Witness for C7: the `Amount` conjunct at a concrete element. -/
theorem claim7_witness :
    pyAttr (Elem.mk "Amt" [("Ccy", "EUR")] (some "12") []) "Ccy" =
      Except.ok (Amount.mk (PyFloat.mk 12 1) "EUR").currency ∧
    Amount.to_dict_tree (Amount.mk (PyFloat.mk 12 1) "EUR") =
      DVal.dict [("value", DVal.float (Amount.mk (PyFloat.mk 12 1) "EUR").value),
        ("currency", DVal.str (Amount.mk (PyFloat.mk 12 1) "EUR").currency)] :=
  claim7_amended.1 (Elem.mk "Amt" [("Ccy", "EUR")] (some "12") [])
    (Amount.mk (PyFloat.mk 12 1) "EUR") (by rfl)

/-- Counterexample to C7 as stated: a parsed `CdtDbtInd` leaf with source text
`CRDT` is serialized as the enum debug string `CreditDebit.Credit`, not the
verbatim source text. -/
theorem claim7_counterexample :
    Balance.parse_xml (Elem.mk "Bal" [] none [Elem.mk "CdtDbtInd" [] (some "CRDT") [],
        Elem.mk "Amt" [("Ccy", "EUR")] (some "12") [],
        Elem.mk "Dt" [] none [Elem.mk "Dt" [] (some "2024-01-05") []]]) =
      Except.ok (Balance.mk none (some (Amount.mk (PyFloat.mk 12 1) "EUR"))
        (some CreditDebit.Credit) (some (PyDatetime.mk 2024 1 5 0 0 0 0 none))) ∧
    Balance.to_dict_tree (Balance.mk none (some (Amount.mk (PyFloat.mk 12 1) "EUR"))
        (some CreditDebit.Credit) (some (PyDatetime.mk 2024 1 5 0 0 0 0 none))) =
      Except.ok (DVal.dict [
        ("balanceType", DVal.str "None"),
        ("amount", DVal.dict [("value", DVal.float (PyFloat.mk 12 1)), ("currency", DVal.str "EUR")]),
        ("creditDebit", DVal.str "CreditDebit.Credit"),
        ("date", DVal.str "2024-01-05T00:00:00")]) ∧
    "CreditDebit.Credit" ≠ "CRDT" := by
  refine ⟨?_, ?_, ?_⟩
  · rfl
  · rfl
  · decide

/-- Claim C8 (code behavior at the failing input).  An empty `RltdAgts`
element parses to a `RelatedAgents` with both agents unset, but serializing
that record does not emit nulls: `RelatedAgents.to_dict_tree` lacks the
`if … else None` guard every other serializer has and raises `AttributeError`
calling `to_dict_tree` on `None`. -/
theorem claim8_code_behavior :
    RelatedAgents.parse_xml (Elem.mk "RltdAgts" [] none []) =
      Except.ok (RelatedAgents.mk none none) ∧
    RelatedAgents.to_dict_tree (RelatedAgents.mk none none) =
      Except.error (PyError.attributeError (noneAttrMsg "to_dict_tree")) := by
  constructor <;> rfl

/-- Claim C9 (amended): each serializer emits a fixed key list, and every key
follows camelCase — except exactly three snake_case keys kept verbatim from
the source: `last_page_indication` (`MessagePagination`),
`end_to_end_identification` and `mandate_identification` (`References`). -/
theorem claim9_amended :
    (∀ r : MessagePagination, dictKeys (MessagePagination.to_dict_tree r) =
      (["pageNumber", "last_page_indication"] : List String)) ∧
    (∀ (r : GroupHeader) (d : DVal), GroupHeader.to_dict_tree r = Except.ok d →
      dictKeys d = (["messageIdentification", "creationTime", "messagePagination"] : List String)) ∧
    (∀ r : FinancialInstitutionIdentification, dictKeys (FinancialInstitutionIdentification.to_dict_tree r) =
      (["bicfi", "name", "other"] : List String)) ∧
    (∀ r : Servicer, dictKeys (Servicer.to_dict_tree r) =
      (["financialInstitutionIdentification"] : List String)) ∧
    (∀ r : Account, dictKeys (Account.to_dict_tree r) =
      (["iban", "currency", "servicer"] : List String)) ∧
    (∀ (r : Balance) (d : DVal), Balance.to_dict_tree r = Except.ok d →
      dictKeys d = (["balanceType", "amount", "creditDebit", "date"] : List String)) ∧
    (∀ r : Amount, dictKeys (Amount.to_dict_tree r) =
      (["value", "currency"] : List String)) ∧
    (∀ r : ProprietaryReference, dictKeys (ProprietaryReference.to_dict_tree r) =
      (["type", "reference"] : List String)) ∧
    (∀ r : References, dictKeys (References.to_dict_tree r) =
      (["end_to_end_identification", "mandate_identification", "proprietaryReference"] : List String)) ∧
    (∀ r : ProprietaryBankTransactionCode, dictKeys (ProprietaryBankTransactionCode.to_dict_tree r) =
      (["code", "issuer"] : List String)) ∧
    (∀ r : PrivateIdentification, dictKeys (PrivateIdentification.to_dict_tree r) =
      (["other"] : List String)) ∧
    (∀ r : PartyIdentification, dictKeys (PartyIdentification.to_dict_tree r) =
      (["name", "identification"] : List String)) ∧
    (∀ r : CashAccount, dictKeys (CashAccount.to_dict_tree r) =
      (["iban"] : List String)) ∧
    (∀ r : RelatedParties, dictKeys (RelatedParties.to_dict_tree r) =
      (["debtor", "debtorAccount", "creditor", "creditorAccount"] : List String)) ∧
    (∀ (r : RelatedAgents) (d : DVal), RelatedAgents.to_dict_tree r = Except.ok d →
      dictKeys d = (["debtorAgent", "creditorAgent"] : List String)) ∧
    (∀ r : RelatedRemittanceInformation, dictKeys (RelatedRemittanceInformation.to_dict_tree r) =
      (["unstructured"] : List String)) ∧
    (∀ (r : TransactionDetails) (d : DVal), TransactionDetails.to_dict_tree r = Except.ok d →
      dictKeys d = (["references", "bankTransactionCode", "relatedAgents", "relatedParties", "relatedRemittanceInformation"] : List String)) ∧
    (∀ (r : EntryDetails) (d : DVal), EntryDetails.to_dict_tree r = Except.ok d →
      dictKeys d = (["transactionDetails"] : List String)) ∧
    (∀ (r : Entry) (d : DVal), Entry.to_dict_tree r = Except.ok d →
      dictKeys d = (["amount", "creditDebit", "status", "bookingDate", "valueDate", "accountServiceReference", "details", "additionalInformation"] : List String)) ∧
    (∀ (r : Report) (d : DVal), Report.to_dict_tree r = Except.ok d →
      dictKeys d = (["identification", "eletronicSequenceNumber", "creationTime", "account", "balances", "entries"] : List String)) ∧
    (∀ (r : BankToCustomerAccountReport) (d : DVal), BankToCustomerAccountReport.to_dict_tree r = Except.ok d →
      dictKeys d = (["groupHeader", "reports"] : List String)) ∧
    (∀ k ∈ allSerializerKeys,
      k ∉ (["last_page_indication", "end_to_end_identification", "mandate_identification"] :
        List String) → noUnderscore k = true) := by
  refine ⟨?_, ?_, ?_, ?_, ?_, ?_, ?_, ?_, ?_, ?_, ?_, ?_, ?_, ?_, ?_, ?_, ?_, ?_, ?_, ?_, ?_, ?_⟩
  · intro r; rfl
  · intro r d h
    unfold GroupHeader.to_dict_tree at h
    obtain ⟨a0, ha0, h⟩ := onOk_eq_ok h
    cases h
    rfl
  · intro r; rfl
  · intro r; rfl
  · intro r; rfl
  · intro r d h
    unfold Balance.to_dict_tree at h
    obtain ⟨a0, ha0, h⟩ := onOk_eq_ok h
    obtain ⟨a1, ha1, h⟩ := onOk_eq_ok h
    cases h
    rfl
  · intro r; rfl
  · intro r; rfl
  · intro r; rfl
  · intro r; rfl
  · intro r; rfl
  · intro r; rfl
  · intro r; rfl
  · intro r; rfl
  · intro r d h
    unfold RelatedAgents.to_dict_tree at h
    obtain ⟨a0, ha0, h⟩ := onOk_eq_ok h
    obtain ⟨a1, ha1, h⟩ := onOk_eq_ok h
    cases h
    rfl
  · intro r; rfl
  · intro r d h
    unfold TransactionDetails.to_dict_tree at h
    obtain ⟨a0, ha0, h⟩ := onOk_eq_ok h
    cases h
    rfl
  · intro r d h
    unfold EntryDetails.to_dict_tree at h
    obtain ⟨a0, ha0, h⟩ := onOk_eq_ok h
    cases h
    rfl
  · intro r d h
    unfold Entry.to_dict_tree at h
    obtain ⟨a0, ha0, h⟩ := onOk_eq_ok h
    obtain ⟨a1, ha1, h⟩ := onOk_eq_ok h
    cases h
    rfl
  · intro r d h
    unfold Report.to_dict_tree at h
    obtain ⟨a0, ha0, h⟩ := onOk_eq_ok h
    obtain ⟨a1, ha1, h⟩ := onOk_eq_ok h
    obtain ⟨a2, ha2, h⟩ := onOk_eq_ok h
    cases h
    rfl
  · intro r d h
    unfold BankToCustomerAccountReport.to_dict_tree at h
    obtain ⟨a0, ha0, h⟩ := onOk_eq_ok h
    obtain ⟨a1, ha1, h⟩ := onOk_eq_ok h
    cases h
    rfl
  · decide

/-- Witness for C9: the GroupHeader component at a concrete record. -/
theorem claim9_witness :
    dictKeys (DVal.dict [("messageIdentification", DVal.null),
        ("creationTime", DVal.str (pyIsoformat (PyDatetime.mk 2024 1 1 0 0 0 0 none))),
        ("messagePagination", DVal.null)]) =
      (["messageIdentification", "creationTime", "messagePagination"] : List String) :=
  claim9_amended.2.1 (GroupHeader.mk none (some (PyDatetime.mk 2024 1 1 0 0 0 0 none)) none)
    (DVal.dict [("messageIdentification", DVal.null),
      ("creationTime", DVal.str (pyIsoformat (PyDatetime.mk 2024 1 1 0 0 0 0 none))),
      ("messagePagination", DVal.null)]) (by rfl)

/-- Counterexample to C9 as stated: the pagination serializer emits its
last-page flag under the snake_case key `last_page_indication`, which is not
camelCase. -/
theorem claim9_counterexample :
    dictKeys (MessagePagination.to_dict_tree (MessagePagination.mk none none)) =
      (["pageNumber", "last_page_indication"] : List String) ∧
    noUnderscore "last_page_indication" = false := by
  constructor <;> rfl

/-- Claim C10: serializer fields guarded by Python truthiness treat a present
but empty string (or empty map) exactly like an absent field: both serialize
to null, indistinguishable in the output.  Shown for
`FinancialInstitutionIdentification.bicfi`/`name`/`other`, the two
`References` identifications, and `Account.currency`. -/
theorem claim10_truthiness :
    (∀ (nm : Option String) (ot : Option (List (String × Option String))),
      FinancialInstitutionIdentification.to_dict_tree
          (FinancialInstitutionIdentification.mk (some "") nm ot) =
        FinancialInstitutionIdentification.to_dict_tree
          (FinancialInstitutionIdentification.mk none nm ot)) ∧
    (∀ (b : Option String) (ot : Option (List (String × Option String))),
      FinancialInstitutionIdentification.to_dict_tree
          (FinancialInstitutionIdentification.mk b (some "") ot) =
        FinancialInstitutionIdentification.to_dict_tree
          (FinancialInstitutionIdentification.mk b none ot)) ∧
    (∀ (b nm : Option String),
      FinancialInstitutionIdentification.to_dict_tree
          (FinancialInstitutionIdentification.mk b nm (some [])) =
        FinancialInstitutionIdentification.to_dict_tree
          (FinancialInstitutionIdentification.mk b nm none)) ∧
    (∀ (m : Option String) (pr : List ProprietaryReference),
      References.to_dict_tree (References.mk (some "") m pr) =
        References.to_dict_tree (References.mk none m pr)) ∧
    (∀ (e : Option String) (pr : List ProprietaryReference),
      References.to_dict_tree (References.mk e (some "") pr) =
        References.to_dict_tree (References.mk e none pr)) ∧
    (∀ (i : Option String) (sv : Option Servicer),
      Account.to_dict_tree (Account.mk i (some "") sv) =
        Account.to_dict_tree (Account.mk i none sv)) ∧
    FinancialInstitutionIdentification.to_dict_tree
        (FinancialInstitutionIdentification.mk (some "") none none) =
      DVal.dict [("bicfi", DVal.null), ("name", DVal.null), ("other", DVal.null)] := by
  refine ⟨?_, ?_, ?_, ?_, ?_, ?_, ?_⟩
  · intro nm ot; rfl
  · intro b ot; rfl
  · intro b nm; rfl
  · intro m pr; rfl
  · intro e pr; rfl
  · intro i sv; rfl
  · rfl

end Camt
